import Mathlib

/-!
# Output-layout inference of the clDNN convolution primitive

A shallow embedding of `convolution_inst::calc_output_layout` and of the constructor
`convolution_inst::typed_primitive_inst`
(`inference-engine/thirdparty/clDNN/src/convolution.cpp`) and theorems about them.

Conventions of the embedding

* `tensor::value_type` is `int32_t`.  Signed overflow is undefined in C++, so the
  extents are mathematical integers (`Int`): the embedding describes the runs in
  which no signed overflow happens.  Two places are modelled with the wrap-around of
  the compiled code: the conversion that the source writes out,
  `(int32_t) get_groups()` (`to_int32`), and the products `2 * input_offset.spatial[i]`
  of the offset checks (`int32_mul`), which leave the range of `int32_t` for an offset
  of `2^30`.  The theorems about the offset checks carry the range of the offsets in
  which the product does not overflow.
* A C++ exception is `Except.error`; a returned layout is `Except.ok`.
* `calc_sliding_window_output_range` lives in `sliding_window_utils.h`, which is not
  part of the sources at hand.  `calc_output_layout` therefore takes the helper as
  an argument, and the theorems that do not speak about the helper itself hold for
  every helper.
-/

namespace cldnn

/-! ## Data model -/

/-- Modelled from the spec: the enumeration `data_types` of the layout header, which is
not among the sources: the floating-point types, the signed and unsigned 8-bit
integer types and the binary type.  `convolution.cpp` names `u8`, `i8`, `f32`, `bin`. -/
inductive data_types where
  | bin
  | u8
  | i8
  | f16
  | f32
  deriving DecidableEq

/-- Modelled from the spec: the enumeration `format` of the tensor header, which is not
among the sources.  The formats that `convolution.cpp` names are listed one by one,
with four plain formats beside them; `other` stands for every further value of the
enumeration. -/
inductive format where
  | bfyx
  | yxfb
  | byxf
  | fyxb
  | bfzyx
  | byxf_af32
  | byx8_f4
  | fs_bs_yx_bsv4_fsv32
  | b_fs_yx_fsv4
  | b_fs_yx_32fp
  | winograd_2x3_s1_data
  | winograd_2x3_s1_weights
  | winograd_2x3_s1_fused_weights
  | winograd_6x3_s1_fused_weights
  | image_2d_weights_winograd_6x3_s1_fbxyb
  | image_2d_weights_winograd_6x3_s1_xfbyb
  | other (tag : Nat)
  deriving DecidableEq

/-- Modelled from the spec: the type `tensor` of the tensor header, which is not among
the sources, as far as `convolution.cpp` reads it: `batch[0]`, `feature[0]`,
`spatial[0]`, `spatial[1]`, `spatial[2]` and `group[0]`. -/
structure tensor where
  batch0 : Int
  feature0 : Int
  spatial0 : Int
  spatial1 : Int
  spatial2 : Int
  group0 : Int
  deriving DecidableEq

/-- Modelled from the spec: the constructor `tensor(batch, feature, x, y)` of the
tensor header, which is not among the sources.  The axes that are not given (spatial Z
and group) take the extent 1. -/
def tensor.of4 (b f x y : Int) : tensor :=
  { batch0 := b, feature0 := f, spatial0 := x, spatial1 := y, spatial2 := 1, group0 := 1 }

/-- Modelled from the spec: the constructor `tensor(batch, feature, x, y, z)` of the
tensor header, which is not among the sources.  The group axis takes the extent 1. -/
def tensor.of5 (b f x y z : Int) : tensor :=
  { batch0 := b, feature0 := f, spatial0 := x, spatial1 := y, spatial2 := z, group0 := 1 }

/-- Modelled from the spec: the type `padding` of the layout header, which is not
among the sources.  The fill value is a `float` in the source; only its comparison
with zero is ever used, and the embedding keeps an integer. -/
structure padding where
  lower_size : tensor
  upper_size : tensor
  filling_value : Int
  deriving DecidableEq

/-- Modelled from the spec: the default `padding()` of the layout header, which is not
among the sources: no padding on any axis and fill value zero. -/
def padding.none : padding :=
  { lower_size := ⟨0, 0, 0, 0, 0, 0⟩, upper_size := ⟨0, 0, 0, 0, 0, 0⟩, filling_value := 0 }

/-- Modelled from the spec: the type `layout` of the layout header, which is not among
the sources: data type, memory format, shape and padding. -/
structure layout where
  data_type : data_types
  format : cldnn.format
  size : tensor
  data_padding : padding
  deriving DecidableEq

/-- Modelled from the spec: the three-argument constructor
`layout{data_type, format, size}` of the layout header, which is not among the
sources; the padding is the default one. -/
def layout.of3 (data_type : data_types) (fmt : cldnn.format) (size : tensor) : layout :=
  { data_type := data_type, format := fmt, size := size, data_padding := padding.none }

/-- Identifier of a primitive (`primitive_id`). -/
abbrev primitive_id := String

/-- Modelled from the spec: the descriptor `convolution` of the primitive header, which
is not among the sources, reached through `node.get_primitive()`, with the members
that `convolution.cpp` reads.  The split count is `weights.size()`. -/
structure convolution where
  weights : List primitive_id
  bias : List primitive_id
  input_offset : tensor
  stride : tensor
  dilation : tensor
  with_output_size : Bool
  output_size : tensor
  groups : Nat
  deformable_groups : Nat

/-- Modelled from the spec: the kind tag of a graph node, as far as `is_type<T>()` is
asked in `convolution.cpp`: a convolution, a reorder, or anything else. -/
inductive primitive_type_id where
  | convolution
  | reorder
  | other
  deriving DecidableEq

/-- Modelled from the spec: a neighbouring node of the graph (`program_node`, whose
header is not among the sources), read only: its kind, its output layout, its
dependencies and, meaningful for a convolution only, what
`as<convolution>().get_split()` and `as<convolution>().get_groups()` return. -/
inductive program_node where
  | mk (type : primitive_type_id) (split : Int) (groups : Nat) (output_layout : layout)
      (dependencies : List program_node)

/-- The capability query `is_type<T>()`. -/
def program_node.is_type : program_node → primitive_type_id → Bool
  | .mk type _ _ _ _, t => decide (type = t)

/-- Accessor `as<convolution>().get_split()`. -/
def program_node.get_split : program_node → Int
  | .mk _ split _ _ _ => split

/-- Accessor `as<convolution>().get_groups()` (an unsigned value). -/
def program_node.get_groups : program_node → Nat
  | .mk _ _ groups _ _ => groups

/-- Accessor `get_output_layout()`. -/
def program_node.get_output_layout : program_node → layout
  | .mk _ _ _ output_layout _ => output_layout

/-- Accessor `get_dependencies()`. -/
def program_node.get_dependencies : program_node → List program_node
  | .mk _ _ _ _ dependencies => dependencies

/-- Modelled from the spec: the node under inference (`convolution_node`, whose header
is not among the sources), as a read-only view with the members that
`convolution.cpp` calls. -/
structure convolution_node where
  id : primitive_id
  get_primitive : convolution
  input : program_node
  weights : Nat → program_node
  bias : Nat → program_node
  bias_term : Bool
  has_fused_primitives : Bool
  get_fused_output_layout : layout
  get_users : List program_node
  get_dependencies : List program_node
  get_output_layout : layout
  get_split : Int
  get_groups : Nat

/-- The conversion `(int32_t) v` of an unsigned value: reduction modulo `2^32` into
the signed range. -/
def to_int32 (v : Nat) : Int :=
  if v % 2 ^ 32 < 2 ^ 31 then ((v % 2 ^ 32 : Nat) : Int) else ((v % 2 ^ 32 : Nat) : Int) - 2 ^ 32

/-- The product of two `int32_t` values as the compiled code computes it: the product
of the integers, reduced modulo `2^32` into the range from `-2^31` to `2^31 - 1`.
Inside that range it is the product of the integers; outside, C++ leaves the result
undefined and the embedding takes the wrap-around. -/
def int32_mul (a b : Int) : Int :=
  (a * b + 2147483648) % 4294967296 - 2147483648

/-- The Winograd weights formats that lines 144-148 of convolution.cpp list. -/
def winograd_weights_formats : List format :=
  [format.winograd_2x3_s1_weights, format.winograd_2x3_s1_fused_weights,
   format.winograd_6x3_s1_fused_weights, format.image_2d_weights_winograd_6x3_s1_fbxyb,
   format.image_2d_weights_winograd_6x3_s1_xfbyb]

/-! ## Errors -/

/-- The comparison that a failed check made. -/
inductive error_condition where
  | less_or_equal_than
  | greater_than
  | not_equal
  | less_than
  | message
  deriving DecidableEq

/-- What a failed `CLDNN_ERROR_*` check carries: the node, the name and value of the
offending parameter, the name and value it was compared with, and the explanation. -/
structure validation_error where
  id : primitive_id
  condition : error_condition
  number_name : String
  number : Int
  compare_to_name : String
  number_to_compare_to : Int
  additional_message : String
  deriving DecidableEq

/-- Modelled from the spec: the check `CLDNN_ERROR_LESS_OR_EQUAL_THAN` of
`error_handler.h`, which is not among the sources: it fails when the value is less
than or equal to the value it is compared with. -/
def CLDNN_ERROR_LESS_OR_EQUAL_THAN (id : primitive_id) (number_name : String) (number : Int)
    (compare_to_name : String) (number_to_compare_to : Int) (additional_message : String) :
    Except validation_error Unit :=
  if number ≤ number_to_compare_to then
    .error ⟨id, .less_or_equal_than, number_name, number, compare_to_name, number_to_compare_to,
      additional_message⟩
  else .ok ()

/-- Modelled from the spec: the check `CLDNN_ERROR_GREATER_THAN` of `error_handler.h`,
which is not among the sources: it fails when the value is greater than the value it is
compared with. -/
def CLDNN_ERROR_GREATER_THAN (id : primitive_id) (number_name : String) (number : Int)
    (compare_to_name : String) (number_to_compare_to : Int) (additional_message : String) :
    Except validation_error Unit :=
  if number > number_to_compare_to then
    .error ⟨id, .greater_than, number_name, number, compare_to_name, number_to_compare_to,
      additional_message⟩
  else .ok ()

/-- Modelled from the spec: the check `CLDNN_ERROR_NOT_EQUAL` of `error_handler.h`,
which is not among the sources: it fails when the value differs from the value it is
compared with. -/
def CLDNN_ERROR_NOT_EQUAL (id : primitive_id) (number_name : String) (number : Int)
    (compare_to_name : String) (number_to_compare_to : Int) (additional_message : String) :
    Except validation_error Unit :=
  if number ≠ number_to_compare_to then
    .error ⟨id, .not_equal, number_name, number, compare_to_name, number_to_compare_to,
      additional_message⟩
  else .ok ()

/-- Modelled from the spec: the check `CLDNN_ERROR_LESS_THAN` of `error_handler.h`,
which is not among the sources: it fails when the value is less than the value it is
compared with. -/
def CLDNN_ERROR_LESS_THAN (id : primitive_id) (number_name : String) (number : Int)
    (compare_to_name : String) (number_to_compare_to : Int) (additional_message : String) :
    Except validation_error Unit :=
  if number < number_to_compare_to then
    .error ⟨id, .less_than, number_name, number, compare_to_name, number_to_compare_to,
      additional_message⟩
  else .ok ()

/-- Modelled from the spec: `CLDNN_ERROR_MESSAGE` of `error_handler.h`, which is not
among the sources: it always fails, with the message alone. -/
def CLDNN_ERROR_MESSAGE (id : primitive_id) (message : String) :
    Except validation_error Unit :=
  .error ⟨id, .message, "", 0, "", 0, message⟩

/-! ## The sliding-window helper -/

/-- The type of `calc_sliding_window_output_range<swor_mode::all>`: input size, window
size, offset, stride, dilation, `sym_offset`, `degen_val`.  The helper may throw. -/
abbrev sliding_window_range :=
  tensor → tensor → tensor → tensor → tensor → Bool → Int → Except validation_error tensor

/-- Modelled from the spec: the extent calculator of `sliding_window_utils.h`, which is
not among the sources.  Along one axis the number of window positions is
`floor((inputExtent + 2*offset - dilatedKernelExtent) / stride) + 1`, where
`dilatedKernelExtent = (kernelExtent - 1)*dilation + 1`. -/
def outputExtent (inputExtent kernelExtent offset stride dilation : Int) : Int :=
  Int.fdiv (inputExtent + 2 * offset - ((kernelExtent - 1) * dilation + 1)) stride + 1

/-- Modelled from the spec: `calc_sliding_window_output_range<swor_mode::all>` of
`sliding_window_utils.h`, which is not among the sources: the extent calculator applied
to each spatial axis independently; it is total.  The spec gives one formula, so
`sym_offset` and `degen_val` are not used; batch, feature and group of the result are
never read by the caller and are left at 0. -/
def calc_sliding_window_output_range : sliding_window_range :=
  fun input_size size offset stride dilation _sym_offset _degen_val =>
    .ok { batch0 := 0, feature0 := 0,
          spatial0 := outputExtent input_size.spatial0 size.spatial0 offset.spatial0
            stride.spatial0 dilation.spatial0,
          spatial1 := outputExtent input_size.spatial1 size.spatial1 offset.spatial1
            stride.spatial1 dilation.spatial1,
          spatial2 := outputExtent input_size.spatial2 size.spatial2 offset.spatial2
            stride.spatial2 dilation.spatial2,
          group0 := 0 }

/-! ## `convolution_inst::calc_output_layout`

The body of the function (convolution.cpp, lines 33-311) is cut into its consecutive
blocks, one definition each, in the order of the source; `calc_output_layout` runs
them in that order. -/

/-- Lines 48-62: the output data type.  It starts as the input type, is replaced by the
fused output type when the node has fused primitives, and becomes `f32` for an 8-bit
integer input without fused primitives. -/
def calc_output_layout.output_type (node : convolution_node) : data_types :=
  let input_layout := node.input.get_output_layout
  let input_type := input_layout.data_type
  let output_type := input_type
  let output_type :=
    if node.has_fused_primitives then node.get_fused_output_layout.data_type else output_type
  let output_type :=
    if (input_type = data_types.u8 ∨ input_type = data_types.i8) ∧ ¬ node.has_fused_primitives
    then data_types.f32 else output_type
  output_type

/-- Lines 65-142: the general parameter verification: stride and dilation on X and Y,
the input offset on X and Y, the feature and batch offset, and for a `bfzyx` input
the checks of the Z axis. -/
def calc_output_layout.verify_parameters (node : convolution_node) :
    Except validation_error Unit := do
  let desc := node.get_primitive
  let input_layout := node.input.get_output_layout
  let input_offset := desc.input_offset
  let stride := desc.stride
  let dilation := desc.dilation
  CLDNN_ERROR_LESS_OR_EQUAL_THAN node.id "Stride spatial X" stride.spatial0 "value" 0
    "Stride spatial X must be positive (>= 1)"
  CLDNN_ERROR_LESS_OR_EQUAL_THAN node.id "Stride spatial Y" stride.spatial1 "value" 0
    "Stride spatial Y must be positive (>= 1)"
  CLDNN_ERROR_LESS_OR_EQUAL_THAN node.id "Dilatation spatial X" dilation.spatial0 "value" 0
    "Dilatation patial X must be positive (>= 1)"
  CLDNN_ERROR_LESS_OR_EQUAL_THAN node.id "Dilatation spatial Y" dilation.spatial1 "value" 0
    "Dilatation spatial Y must be positive (>= 1)"
  CLDNN_ERROR_GREATER_THAN node.id "Input offset spatial X" (int32_mul 2 input_offset.spatial0)
    "input layout spatial X" input_layout.size.spatial0 "There is no input data to process"
  CLDNN_ERROR_GREATER_THAN node.id "Input offset spatial Y" (int32_mul 2 input_offset.spatial1)
    "input layout spatial Y" input_layout.size.spatial1 "There is no input data to process"
  CLDNN_ERROR_NOT_EQUAL node.id "Input offset feature" input_offset.feature0 "" 0
    "Input offset in feature is not supported"
  CLDNN_ERROR_NOT_EQUAL node.id "Input offset batch" input_offset.batch0 "" 0
    "Input offset in batch is not supported"
  if input_layout.format = format.bfzyx then
    -- convolution 3D
    CLDNN_ERROR_LESS_OR_EQUAL_THAN node.id "Stride spatial Z" stride.spatial2 "value" 0
      "Stride spatial Z must be positive (>= 1)"
    CLDNN_ERROR_LESS_OR_EQUAL_THAN node.id "Dilatation spatial Z" dilation.spatial2 "value" 0
      "Dilatation spatial Z must be positive (>= 1)"
    CLDNN_ERROR_GREATER_THAN node.id "Input offset spatial Z" (int32_mul 2 input_offset.spatial2)
      "input layout spatial Z" input_layout.size.spatial1 "There is no input data to process"
  else
    pure ()

/-- Lines 144-151: an input in one of the Winograd weights formats is refused. -/
def calc_output_layout.verify_input_format (node : convolution_node) :
    Except validation_error Unit :=
  let input_layout := node.input.get_output_layout
  if input_layout.format = format.winograd_2x3_s1_weights ∨
      input_layout.format = format.winograd_2x3_s1_fused_weights ∨
      input_layout.format = format.winograd_6x3_s1_fused_weights ∨
      input_layout.format = format.image_2d_weights_winograd_6x3_s1_fbxyb ∨
      input_layout.format = format.image_2d_weights_winograd_6x3_s1_xfbyb then
    CLDNN_ERROR_MESSAGE node.id
      "Input for convolution should not be in windograd weights format - it is reserved for weights only"
  else
    pure ()

/-- Lines 154-216: the body of the branch taken for an input in the format
`winograd_2x3_s1_data`. -/
def calc_output_layout.winograd_layout (node : convolution_node) (output_type : data_types) :
    Except validation_error layout := do
  let desc := node.get_primitive
  let input_layout := node.input.get_output_layout
  let weights_layout := (node.weights 0).get_output_layout
  let stride := desc.stride
  let dilation := desc.dilation
  let split : Nat := desc.weights.length
  CLDNN_ERROR_NOT_EQUAL node.id "convolution split" (split : Int) "expected value" 1
    "Convolution with winograd input only supports split == 1"
  CLDNN_ERROR_NOT_EQUAL node.id "stride spatial X" stride.spatial0 "expected value" 1
    "Convolution's input in winograd_2x3_s1_data format can only be used with stride 1x1"
  CLDNN_ERROR_NOT_EQUAL node.id "stride spatial Y" stride.spatial1 "expected value" 1
    "Convolution's input in winograd_2x3_s1_data format can only be used with stride 1x1"
  CLDNN_ERROR_NOT_EQUAL node.id "Dilatation spatial X" dilation.spatial0 "expected value" 1
    "Winograd 2x3 convolution does not support dilatation"
  CLDNN_ERROR_NOT_EQUAL node.id "Dilatation spatial Y" dilation.spatial1 "expected value" 1
    "Winograd 2x3 convolution does not support dilatation"
  (if Int.tmod input_layout.size.feature0 32 ≠ 0 then
    CLDNN_ERROR_MESSAGE node.id
      "Input for winograd 2x3 convolution should have features count divisable by 32"
  else pure ())
  (if Int.tmod weights_layout.size.batch0 32 ≠ 0 then
    CLDNN_ERROR_MESSAGE node.id
      "Number of filters (OFM) for winograd 2x3 convolution should be divisable by 32"
  else pure ())
  CLDNN_ERROR_LESS_THAN node.id "input width" input_layout.size.spatial0 "filter width" 3
    "Convolution input is smaller than weights"
  CLDNN_ERROR_LESS_THAN node.id "input height" input_layout.size.spatial1 "filter height" 3
    "Convolution input is smaller than weights"
  let filter_height : Int := 3
  let winograd_filter_height : Int := filter_height
  pure { data_type := output_type,
         format := input_layout.format,
         size := tensor.of4 input_layout.size.batch0
           (weights_layout.size.batch0 * weights_layout.size.group0)
           input_layout.size.spatial0
           (input_layout.size.spatial1 - winograd_filter_height + 1),
         data_padding := input_layout.data_padding }

/-- Lines 224-252: the body of the branch taken when the descriptor carries an output
size (`with_output_size`). -/
def calc_output_layout.user_defined_layout (node : convolution_node)
    (output_type : data_types) : Except validation_error layout := do
  let desc := node.get_primitive
  let input_layout := node.input.get_output_layout
  CLDNN_ERROR_LESS_OR_EQUAL_THAN node.id "User defined output spatial X"
    desc.output_size.spatial0 "value" 0 "must be positive(>= 1)"
  CLDNN_ERROR_LESS_OR_EQUAL_THAN node.id "User defined output spatial Y"
    desc.output_size.spatial1 "value" 0 "must be positive(>= 1)"
  CLDNN_ERROR_LESS_OR_EQUAL_THAN node.id "User defined output spatial Z"
    desc.output_size.spatial2 "value" 0 "must be positive(>= 1)"
  let output_size := tensor.of5 input_layout.size.batch0 desc.output_size.feature0
    desc.output_size.spatial0 desc.output_size.spatial1 desc.output_size.spatial2
  if output_type = data_types.bin then
    pure (layout.of3 output_type format.b_fs_yx_32fp output_size)
  else
    pure (layout.of3 output_type input_layout.format output_size)

/-- Lines 272-310: the memory format of the default path, once the output size is
known.  `front()` of an empty dependency vector is undefined in C++ and does not
occur in a program graph (a convolution and a reorder always have an input); in the
embedding the predecessor rule does not fire there. -/
def calc_output_layout.select_layout (node : convolution_node) (output_type : data_types)
    (output_size : tensor) : layout :=
  let input_layout := node.input.get_output_layout
  if output_type = data_types.bin then
    layout.of3 output_type format.b_fs_yx_32fp output_size
  else
  -- first convolution layer: takes byx8_f4 and returns fs_bs_yx_bsv4_fsv32
  if input_layout.data_type = data_types.i8 ∧ input_layout.format = format.byx8_f4 ∧
      Int.tmod input_layout.size.batch0 4 = 0 ∧ input_layout.size.feature0 = 3 then
    layout.of3 output_type format.fs_bs_yx_bsv4_fsv32 output_size
  else
  let users := node.get_users
  match users with
  | [user] =>
    if user.is_type primitive_type_id.convolution then
      let conv_split := user.get_split
      let conv_groups := to_int32 user.get_groups
      let next_is_dw : Bool :=
        (decide (conv_split > 1) && decide (conv_split = output_size.feature0)) ||
        (decide (conv_groups > 1) && decide (conv_groups = output_size.feature0))
      if input_layout.data_type = data_types.i8 ∧ input_layout.format = format.b_fs_yx_fsv4 ∧
          next_is_dw = true then
        layout.of3 output_type format.byxf_af32 output_size
      else
      match node.get_dependencies with
      | [] => layout.of3 output_type input_layout.format output_size
      | prev_node :: _ =>
        let prev_node : Option program_node :=
          if prev_node.is_type primitive_type_id.reorder then prev_node.get_dependencies.head?
          else some prev_node
        match prev_node with
        | none => layout.of3 output_type input_layout.format output_size
        | some prev_node =>
          let prev_is_convo := prev_node.is_type primitive_type_id.convolution
          match prev_is_convo, prev_node.get_dependencies with
          | true, prev2_node :: _ =>
            let prev_input_format := prev2_node.get_output_layout.format
            if input_layout.data_type = data_types.i8 ∧
                input_layout.format = format.byxf_af32 ∧ next_is_dw = false ∧
                prev_input_format = format.b_fs_yx_fsv4 then
              layout.of3 output_type format.b_fs_yx_fsv4 output_size
            else
              layout.of3 output_type input_layout.format output_size
          | _, _ => layout.of3 output_type input_layout.format output_size
    else
      layout.of3 output_type input_layout.format output_size
  | _ => layout.of3 output_type input_layout.format output_size

/-- Lines 255-310: the default path: the output range comes from the sliding-window
helper, the feature count from the descriptor or the weights, the memory format from
`select_layout`. -/
def calc_output_layout.default_layout (swor : sliding_window_range) (node : convolution_node)
    (output_type : data_types) : Except validation_error layout := do
  let desc := node.get_primitive
  let input_layout := node.input.get_output_layout
  let weights_layout := (node.weights 0).get_output_layout
  let filter_size := weights_layout.size
  let number_of_features := weights_layout.size.batch0 * weights_layout.size.group0
  let output_range ← swor input_layout.size filter_size desc.input_offset desc.stride
    desc.dilation true 1
  let output_features : Int :=
    if desc.output_size.feature0 ≠ 0 then desc.output_size.feature0 else number_of_features
  let output_size := tensor.of5 input_layout.size.batch0 output_features
    output_range.spatial0 output_range.spatial1 output_range.spatial2
  pure (calc_output_layout.select_layout node output_type output_size)

/-- The function `convolution_inst::calc_output_layout` (convolution.cpp, lines 33-311).
`swor` stands for `calc_sliding_window_output_range<swor_mode::all>`. -/
def calc_output_layout (swor : sliding_window_range) (node : convolution_node) :
    Except validation_error layout := do
  let desc := node.get_primitive
  let input_layout := node.input.get_output_layout
  let output_type := calc_output_layout.output_type node
  calc_output_layout.verify_parameters node
  calc_output_layout.verify_input_format node
  if input_layout.format = format.winograd_2x3_s1_data then
    calc_output_layout.winograd_layout node output_type
  else if desc.with_output_size then
    calc_output_layout.user_defined_layout node output_type
  else
    calc_output_layout.default_layout swor node output_type

/-! ## The conditions of the format rules -/

/-- Lines 221 and 263-264: the output feature count of the default path: the feature
value of the descriptor's `output_size` when it is not 0, and otherwise the weights
batch times the weights group. -/
def calc_output_layout.output_features (node : convolution_node) : Int :=
  let weights_layout := (node.weights 0).get_output_layout
  let number_of_features := weights_layout.size.batch0 * weights_layout.size.group0
  if node.get_primitive.output_size.feature0 ≠ 0 then node.get_primitive.output_size.feature0
  else number_of_features

/-- Lines 288-289: the test `next_is_dw` on the single user of the node:
`(conv_split > 1 && conv_split == output_size.feature[0]) ||
(conv_groups > 1 && conv_groups == output_size.feature[0])`, where `output_size` is the
output size of the node under inference and `conv_groups` is `(int32_t) get_groups()`. -/
def calc_output_layout.next_is_dw (user : program_node) (output_features : Int) : Prop :=
  (user.get_split > 1 ∧ user.get_split = output_features) ∨
  (to_int32 user.get_groups > 1 ∧ to_int32 user.get_groups = output_features)

/-- Lines 295-297: the predecessor `prev_node`: the first dependency of the node, or
the first dependency of that one when it is a reorder. -/
def calc_output_layout.prev_node (node : convolution_node) : Option program_node :=
  match node.get_dependencies with
  | [] => none
  | prev_node :: _ =>
    if prev_node.is_type primitive_type_id.reorder then prev_node.get_dependencies.head?
    else some prev_node

/-- Lines 278-279: the condition of the first-layer rule. -/
def calc_output_layout.first_layer (node : convolution_node) : Prop :=
  node.input.get_output_layout.data_type = data_types.i8 ∧
  node.input.get_output_layout.format = format.byx8_f4 ∧
  Int.tmod node.input.get_output_layout.size.batch0 4 = 0 ∧
  node.input.get_output_layout.size.feature0 = 3

/-! ## `convolution_inst::typed_primitive_inst` -/

/-- Modelled from the spec: the axis counts `raw.size()`, `feature.size()` and
`batch.size()` of a tensor, whose header is not among the sources.  They are taken as
given functions of the tensor. -/
structure tensor_dims where
  raw_size : tensor → Nat
  feature_size : tensor → Nat
  batch_size : tensor → Nat

/-- Lines 385-417: the checks of the bias of group `j`.  The quotient
`output_size.feature[0] / split` is the truncating division of C++. -/
def typed_primitive_inst.verify_bias (node : convolution_node) (j : Nat) :
    Except validation_error Unit := do
  let output_inst := node.get_output_layout
  let output_size := output_inst.size
  let split := node.get_split
  let bias_inst := (node.bias j).get_output_layout
  CLDNN_ERROR_NOT_EQUAL node.id "Bias batch[0]" bias_inst.size.batch0
    "expected size of batch" 1 "Biases isn't 1D vector."
  CLDNN_ERROR_NOT_EQUAL node.id "Bias feature[0]" bias_inst.size.feature0
    "expected feature map number" (Int.tdiv output_size.feature0 split) "Bias/fm mismatch"
  CLDNN_ERROR_NOT_EQUAL node.id "Bias spatial[2]" bias_inst.size.spatial2
    "expected size of spatial[2]" 1 "Biases isn't 1D vector."
  CLDNN_ERROR_NOT_EQUAL node.id "Bias spatial[1]" bias_inst.size.spatial1
    "expected size of spatial[1]" 1 "Biases isn't 1D vector."
  CLDNN_ERROR_NOT_EQUAL node.id "Bias spatial[0]" bias_inst.size.spatial0
    "expected size of spatial[0]" 1 "Biases isn't 1D vector."

/-- Lines 384-456: the body of the loop over the groups, for group `j`.  `argument` is
the descriptor of the node, `bias_term()` the field `bias_term`. -/
def typed_primitive_inst.verify_group (dims : tensor_dims) (node : convolution_node)
    (j : Nat) : Except validation_error Unit := do
  let input_inst := node.input.get_output_layout
  let output_inst := node.get_output_layout
  let output_size := output_inst.size
  let split := node.get_split
  let filter_inst := (node.weights j).get_output_layout
  (if node.bias_term then typed_primitive_inst.verify_bias node j else pure ())
  let input_offset := node.get_primitive.input_offset
  CLDNN_ERROR_NOT_EQUAL node.id "Weights number of dimensions"
    (dims.raw_size filter_inst.size) "output number of dimensions"
    (dims.raw_size output_inst.size) "Weights/output dims mismatch"
  CLDNN_ERROR_NOT_EQUAL node.id "Convolution padding mode"
    node.get_output_layout.data_padding.filling_value "padding value" 0
    "Unknown padding mode."
  CLDNN_ERROR_NOT_EQUAL node.id "Input offset number of dimensions"
    (dims.raw_size input_offset) "input number of dimensions"
    (dims.raw_size input_inst.size) "Input offset/ input size mismatch"
  CLDNN_ERROR_NOT_EQUAL node.id "Output feature size" (dims.feature_size output_size)
    "expected feature size" 1 "Only one-dimensional features are supported"
  CLDNN_ERROR_NOT_EQUAL node.id "Output batch size" (dims.batch_size output_size)
    "expected output size" 1 "Only one-dimensional batch size are supported"
  CLDNN_ERROR_LESS_THAN node.id "Weights feature maps number"
    (Int.tdiv (input_inst.size.feature0 - input_offset.feature0) split)
    "input feature maps number" filter_inst.size.feature0 "Weights/ifm mismatch"

/-- The body of the constructor `convolution_inst::typed_primitive_inst`
(convolution.cpp, lines 362-458), behind the constructor of the base class: the two
checks of the axis counts and the loop `for (j = 0; j < split; j++)` over the groups.
It returns nothing; a failed check is the exception. -/
def typed_primitive_inst (dims : tensor_dims) (node : convolution_node) :
    Except validation_error Unit := do
  let stride := node.get_primitive.stride
  let input_inst := node.input.get_output_layout
  let output_inst := node.get_output_layout
  CLDNN_ERROR_NOT_EQUAL node.id "Input number of dimensions" (dims.raw_size input_inst.size)
    "output number of dimensions" (dims.raw_size output_inst.size)
    "Input/output dims mismatch"
  CLDNN_ERROR_NOT_EQUAL node.id "Stride number of dimensions" (dims.raw_size stride)
    "output number of dimensions" (dims.raw_size output_inst.size)
    "stride/output dims mismatch"
  let split := node.get_split
  List.forM (List.range split.toNat) (typed_primitive_inst.verify_group dims node)

/-- A node without dependencies that only carries an output layout (a data input). -/
def data_node (l : layout) : program_node :=
  program_node.mk primitive_type_id.other 1 1 l []

/-- A descriptor with one weights primitive, no bias and no output size. -/
def example_desc (input_offset stride dilation : tensor) : convolution :=
  { weights := ["weights"], bias := [], input_offset := input_offset, stride := stride,
    dilation := dilation, with_output_size := false, output_size := ⟨0, 0, 0, 0, 0, 0⟩,
    groups := 1, deformable_groups := 1 }

/-- A convolution node over one input and one weights tensor, with no bias, no fused
primitives, no users and the two data nodes as dependencies. -/
def example_node (desc : convolution) (input_layout weights_layout : layout) :
    convolution_node :=
  { id := "conv", get_primitive := desc, input := data_node input_layout,
    weights := fun _ => data_node weights_layout, bias := fun _ => data_node weights_layout,
    bias_term := false, has_fused_primitives := false, get_fused_output_layout := input_layout,
    get_users := [], get_dependencies := [data_node input_layout, data_node weights_layout],
    get_output_layout := input_layout, get_split := 1, get_groups := 1 }

/-- The first test of the spec: input `f32`, `bfyx`, (1, 3, 224, 224); weights
(64, 3, 7, 7); stride (2, 2); dilation (1, 1); offset (0, 0). -/
def example_conv7x7 : convolution_node :=
  example_node (example_desc ⟨0, 0, 0, 0, 0, 1⟩ ⟨1, 1, 2, 2, 1, 1⟩ ⟨1, 1, 1, 1, 1, 1⟩)
    ⟨data_types.f32, format.bfyx, ⟨1, 3, 224, 224, 1, 1⟩, padding.none⟩
    ⟨data_types.f32, format.bfyx, ⟨64, 3, 7, 7, 1, 1⟩, padding.none⟩

/-- The same convolution over an `i8` input. -/
def example_conv7x7_i8 : convolution_node :=
  example_node (example_desc ⟨0, 0, 0, 0, 0, 1⟩ ⟨1, 1, 2, 2, 1, 1⟩ ⟨1, 1, 1, 1, 1, 1⟩)
    ⟨data_types.i8, format.bfyx, ⟨1, 3, 224, 224, 1, 1⟩, padding.none⟩
    ⟨data_types.i8, format.bfyx, ⟨64, 3, 7, 7, 1, 1⟩, padding.none⟩

/-- An input in `winograd_2x3_s1_data` with 32 features and extent 8 x 10, 64 filters,
stride and dilation 1; the descriptor also carries an output size. -/
def example_winograd : convolution_node :=
  example_node
    { example_desc ⟨0, 0, 0, 0, 0, 1⟩ ⟨1, 1, 1, 1, 1, 1⟩ ⟨1, 1, 1, 1, 1, 1⟩ with
      with_output_size := true, output_size := ⟨1, 5, 7, 7, 1, 1⟩ }
    ⟨data_types.f32, format.winograd_2x3_s1_data, ⟨2, 32, 8, 10, 1, 1⟩, padding.none⟩
    ⟨data_types.f32, format.winograd_2x3_s1_weights, ⟨64, 32, 3, 3, 1, 1⟩, padding.none⟩

/-- An input in `winograd_2x3_s1_data` with 48 features: not a multiple of 32. -/
def example_winograd_48 : convolution_node :=
  example_node (example_desc ⟨0, 0, 0, 0, 0, 1⟩ ⟨1, 1, 1, 1, 1, 1⟩ ⟨1, 1, 1, 1, 1, 1⟩)
    ⟨data_types.f32, format.winograd_2x3_s1_data, ⟨2, 48, 8, 10, 1, 1⟩, padding.none⟩
    ⟨data_types.f32, format.winograd_2x3_s1_weights, ⟨64, 48, 3, 3, 1, 1⟩, padding.none⟩

/-- A descriptor that carries the output size (feature 16, 5 x 6 x 1), over a
`byxf` input of batch 2. -/
def example_user_defined : convolution_node :=
  example_node
    { example_desc ⟨0, 0, 0, 0, 0, 1⟩ ⟨1, 1, 2, 2, 1, 1⟩ ⟨1, 1, 1, 1, 1, 1⟩ with
      with_output_size := true, output_size := ⟨1, 16, 5, 6, 1, 1⟩ }
    ⟨data_types.f16, format.byxf, ⟨2, 3, 12, 14, 1, 1⟩, padding.none⟩
    ⟨data_types.f16, format.bfyx, ⟨16, 3, 3, 3, 1, 1⟩, padding.none⟩

/-- A descriptor that carries an output size whose Y extent is 0. -/
def example_user_defined_y0 : convolution_node :=
  example_node
    { example_desc ⟨0, 0, 0, 0, 0, 1⟩ ⟨1, 1, 2, 2, 1, 1⟩ ⟨1, 1, 1, 1, 1, 1⟩ with
      with_output_size := true, output_size := ⟨1, 16, 5, 0, 1, 1⟩ }
    ⟨data_types.f16, format.byxf, ⟨2, 3, 12, 14, 1, 1⟩, padding.none⟩
    ⟨data_types.f16, format.bfyx, ⟨16, 3, 3, 3, 1, 1⟩, padding.none⟩

/-- A first-layer shaped input (`i8`, `byx8_f4`, batch 4, 3 features) whose fused
primitives give the output type `bin`. -/
def example_bin : convolution_node :=
  { example_node (example_desc ⟨0, 0, 0, 0, 0, 1⟩ ⟨1, 1, 1, 1, 1, 1⟩ ⟨1, 1, 1, 1, 1, 1⟩)
      ⟨data_types.i8, format.byx8_f4, ⟨4, 3, 16, 16, 1, 1⟩, padding.none⟩
      ⟨data_types.i8, format.bfyx, ⟨8, 3, 3, 3, 1, 1⟩, padding.none⟩ with
    has_fused_primitives := true,
    get_fused_output_layout :=
      ⟨data_types.bin, format.b_fs_yx_32fp, ⟨4, 8, 14, 14, 1, 1⟩, padding.none⟩ }

/-- An input tagged with the weights format `winograd_2x3_s1_weights`. -/
def example_weights_format : convolution_node :=
  example_node (example_desc ⟨0, 0, 0, 0, 0, 1⟩ ⟨1, 1, 1, 1, 1, 1⟩ ⟨1, 1, 1, 1, 1, 1⟩)
    ⟨data_types.f32, format.winograd_2x3_s1_weights, ⟨1, 32, 8, 8, 1, 1⟩, padding.none⟩
    ⟨data_types.f32, format.bfyx, ⟨32, 32, 3, 3, 1, 1⟩, padding.none⟩

/-- An input of extent 2 x 2 with the input offset 1 on X: twice the offset equals the
extent.  The descriptor carries the output size, so the sliding-window helper is not
called. -/
def example_offset_equal : convolution_node :=
  example_node
    { example_desc ⟨0, 0, 1, 0, 0, 1⟩ ⟨1, 1, 1, 1, 1, 1⟩ ⟨1, 1, 1, 1, 1, 1⟩ with
      with_output_size := true, output_size := ⟨1, 1, 1, 1, 1, 1⟩ }
    ⟨data_types.f32, format.bfyx, ⟨1, 1, 2, 2, 1, 1⟩, padding.none⟩
    ⟨data_types.f32, format.bfyx, ⟨1, 1, 1, 1, 1, 1⟩, padding.none⟩

/-- A `bfzyx` input of extent 8 x 8 x 2 with the input offset 2 on Z: twice the offset
(4) exceeds the Z extent (2) and stays below the Y extent (8).  The descriptor carries
the output size. -/
def example_3d_offset_above_z : convolution_node :=
  example_node
    { example_desc ⟨0, 0, 0, 0, 2, 1⟩ ⟨1, 1, 1, 1, 1, 1⟩ ⟨1, 1, 1, 1, 1, 1⟩ with
      with_output_size := true, output_size := ⟨1, 4, 8, 8, 1, 1⟩ }
    ⟨data_types.f32, format.bfzyx, ⟨1, 4, 8, 8, 2, 1⟩, padding.none⟩
    ⟨data_types.f32, format.bfzyx, ⟨4, 4, 1, 1, 1, 1⟩, padding.none⟩

/-- A `bfzyx` input of extent 8 x 2 x 8 with the input offset 2 on Z: twice the offset
(4) is below the Z extent (8) and exceeds the Y extent (2). -/
def example_3d_offset_below_z : convolution_node :=
  example_node
    { example_desc ⟨0, 0, 0, 0, 2, 1⟩ ⟨1, 1, 1, 1, 1, 1⟩ ⟨1, 1, 1, 1, 1, 1⟩ with
      with_output_size := true, output_size := ⟨1, 4, 8, 2, 4, 1⟩ }
    ⟨data_types.f32, format.bfzyx, ⟨1, 4, 8, 2, 8, 1⟩, padding.none⟩
    ⟨data_types.f32, format.bfzyx, ⟨4, 4, 1, 1, 1, 1⟩, padding.none⟩

/-- A `bfzyx` input with stride 0 on Z and the input offset 1 along the feature axis;
the checks of X and Y pass. -/
def example_3d_stride_z_feature_offset : convolution_node :=
  example_node (example_desc ⟨0, 1, 0, 0, 0, 1⟩ ⟨1, 1, 1, 1, 0, 1⟩ ⟨1, 1, 1, 1, 1, 1⟩)
    ⟨data_types.f32, format.bfzyx, ⟨1, 4, 8, 8, 8, 1⟩, padding.none⟩
    ⟨data_types.f32, format.bfzyx, ⟨4, 4, 3, 3, 3, 1⟩, padding.none⟩

/-- A `bfzyx` input with dilation 0 on Z and nothing else wrong. -/
def example_3d_dilation_z : convolution_node :=
  example_node (example_desc ⟨0, 0, 0, 0, 0, 1⟩ ⟨1, 1, 1, 1, 1, 1⟩ ⟨1, 1, 1, 1, 0, 1⟩)
    ⟨data_types.f32, format.bfzyx, ⟨1, 4, 8, 8, 8, 1⟩, padding.none⟩
    ⟨data_types.f32, format.bfzyx, ⟨4, 4, 3, 3, 3, 1⟩, padding.none⟩

/-- A `bfyx` input with the input offset 1 along the batch axis. -/
def example_batch_offset : convolution_node :=
  example_node (example_desc ⟨1, 0, 0, 0, 0, 1⟩ ⟨1, 1, 1, 1, 1, 1⟩ ⟨1, 1, 1, 1, 1, 1⟩)
    ⟨data_types.f32, format.bfyx, ⟨1, 4, 8, 8, 1, 1⟩, padding.none⟩
    ⟨data_types.f32, format.bfyx, ⟨4, 4, 3, 3, 1, 1⟩, padding.none⟩

/-- A convolution node as a neighbour: split, groups, output layout, dependencies. -/
def convolution_neighbour (split : Int) (groups : Nat) (l : layout)
    (dependencies : List program_node) : program_node :=
  program_node.mk primitive_type_id.convolution split groups l dependencies

/-- An `i8` input in `b_fs_yx_fsv4` and 16 filters; the single user is a convolution
with split 8 that has 8 output features of its own. -/
def example_consumer_own_features : convolution_node :=
  { example_node (example_desc ⟨0, 0, 0, 0, 0, 1⟩ ⟨1, 1, 1, 1, 1, 1⟩ ⟨1, 1, 1, 1, 1, 1⟩)
      ⟨data_types.i8, format.b_fs_yx_fsv4, ⟨1, 4, 8, 8, 1, 1⟩, padding.none⟩
      ⟨data_types.i8, format.bfyx, ⟨16, 4, 3, 3, 1, 1⟩, padding.none⟩ with
    get_users := [convolution_neighbour 8 1
      ⟨data_types.f32, format.bfyx, ⟨1, 8, 4, 4, 1, 1⟩, padding.none⟩ []] }

/-- An `i8` input in `b_fs_yx_fsv4` and 1 filter; the single user is a convolution
with split 1 and 1 group that has 1 output feature of its own. -/
def example_consumer_single_feature : convolution_node :=
  { example_node (example_desc ⟨0, 0, 0, 0, 0, 1⟩ ⟨1, 1, 1, 1, 1, 1⟩ ⟨1, 1, 1, 1, 1, 1⟩)
      ⟨data_types.i8, format.b_fs_yx_fsv4, ⟨1, 4, 8, 8, 1, 1⟩, padding.none⟩
      ⟨data_types.i8, format.bfyx, ⟨1, 4, 3, 3, 1, 1⟩, padding.none⟩ with
    get_users := [convolution_neighbour 1 1
      ⟨data_types.f32, format.bfyx, ⟨1, 1, 4, 4, 1, 1⟩, padding.none⟩ []] }

/-- An `i8` input in `b_fs_yx_fsv4` and 16 filters; the single user is a convolution
with 16 groups. -/
def example_consumer_depthwise : convolution_node :=
  { example_node (example_desc ⟨0, 0, 0, 0, 0, 1⟩ ⟨1, 1, 1, 1, 1, 1⟩ ⟨1, 1, 1, 1, 1, 1⟩)
      ⟨data_types.i8, format.b_fs_yx_fsv4, ⟨1, 4, 8, 8, 1, 1⟩, padding.none⟩
      ⟨data_types.i8, format.bfyx, ⟨16, 4, 3, 3, 1, 1⟩, padding.none⟩ with
    get_users := [convolution_neighbour 1 16
      ⟨data_types.f32, format.bfyx, ⟨1, 16, 4, 4, 1, 1⟩, padding.none⟩ []] }

/-- A convolution with output in `byxf_af32` whose own input is in `b_fs_yx_fsv4`. -/
def example_prev_convolution : program_node :=
  convolution_neighbour 1 1
    ⟨data_types.i8, format.byxf_af32, ⟨1, 16, 8, 8, 1, 1⟩, padding.none⟩
    [data_node ⟨data_types.i8, format.b_fs_yx_fsv4, ⟨1, 16, 10, 10, 1, 1⟩, padding.none⟩]

/-- A user that is a convolution with split 1 and 1 group. -/
def example_plain_consumer : program_node :=
  convolution_neighbour 1 1 ⟨data_types.f32, format.bfyx, ⟨1, 32, 4, 4, 1, 1⟩, padding.none⟩ []

/-- An `i8` input in `byxf_af32` that comes from `example_prev_convolution`, 16 filters,
and two users, both convolutions with split 1 and 1 group. -/
def example_prev_convolution_two_users : convolution_node :=
  { example_node (example_desc ⟨0, 0, 0, 0, 0, 1⟩ ⟨1, 1, 1, 1, 1, 1⟩ ⟨1, 1, 1, 1, 1, 1⟩)
      ⟨data_types.i8, format.byxf_af32, ⟨1, 16, 8, 8, 1, 1⟩, padding.none⟩
      ⟨data_types.i8, format.bfyx, ⟨16, 16, 3, 3, 1, 1⟩, padding.none⟩ with
    input := example_prev_convolution,
    get_users := [example_plain_consumer, example_plain_consumer],
    get_dependencies := [example_prev_convolution,
      data_node ⟨data_types.i8, format.bfyx, ⟨16, 16, 3, 3, 1, 1⟩, padding.none⟩] }

/-- A reorder to `byxf_af32` behind `example_prev_convolution`. -/
def example_reorder : program_node :=
  program_node.mk primitive_type_id.reorder 1 1
    ⟨data_types.i8, format.byxf_af32, ⟨1, 16, 8, 8, 1, 1⟩, padding.none⟩
    [example_prev_convolution]

/-- An `i8` input in `byxf_af32` that comes through a reorder from
`example_prev_convolution`, 16 filters, and one user, a convolution with split 1 and
1 group. -/
def example_prev_convolution_one_user : convolution_node :=
  { example_node (example_desc ⟨0, 0, 0, 0, 0, 1⟩ ⟨1, 1, 1, 1, 1, 1⟩ ⟨1, 1, 1, 1, 1, 1⟩)
      ⟨data_types.i8, format.byxf_af32, ⟨1, 16, 8, 8, 1, 1⟩, padding.none⟩
      ⟨data_types.i8, format.bfyx, ⟨16, 16, 3, 3, 1, 1⟩, padding.none⟩ with
    input := example_reorder,
    get_users := [example_plain_consumer],
    get_dependencies := [example_reorder,
      data_node ⟨data_types.i8, format.bfyx, ⟨16, 16, 3, 3, 1, 1⟩, padding.none⟩] }

/-- A first-layer shaped input (`i8`, `byx8_f4`, batch 4, 3 features) with 8 filters
and one user, a convolution with 8 groups. -/
def example_first_layer : convolution_node :=
  { example_node (example_desc ⟨0, 0, 0, 0, 0, 1⟩ ⟨1, 1, 1, 1, 1, 1⟩ ⟨1, 1, 1, 1, 1, 1⟩)
      ⟨data_types.i8, format.byx8_f4, ⟨4, 3, 16, 16, 1, 1⟩, padding.none⟩
      ⟨data_types.i8, format.bfyx, ⟨8, 3, 3, 3, 1, 1⟩, padding.none⟩ with
    get_users := [convolution_neighbour 1 8
      ⟨data_types.f32, format.bfyx, ⟨4, 8, 12, 12, 1, 1⟩, padding.none⟩ []] }

/-- Axis counts that do not depend on the tensor: six raw values, one feature value,
one batch value. -/
def example_dims : tensor_dims :=
  { raw_size := fun _ => 6, feature_size := fun _ => 1, batch_size := fun _ => 1 }

/-- A convolution in two groups with a bias: input (1, 8, 10, 10), output
(1, 16, 8, 8); each group has weights (8, 4, 3, 3) and a bias of the given layout. -/
def example_grouped (weights_layout bias_layout : layout) : convolution_node :=
  { id := "conv",
    get_primitive :=
      { example_desc ⟨0, 0, 0, 0, 0, 1⟩ ⟨1, 1, 1, 1, 1, 1⟩ ⟨1, 1, 1, 1, 1, 1⟩ with
        weights := ["weights0", "weights1"], bias := ["bias0", "bias1"] },
    input := data_node ⟨data_types.f32, format.bfyx, ⟨1, 8, 10, 10, 1, 1⟩, padding.none⟩,
    weights := fun _ => data_node weights_layout,
    bias := fun _ => data_node bias_layout,
    bias_term := true, has_fused_primitives := false,
    get_fused_output_layout :=
      ⟨data_types.f32, format.bfyx, ⟨1, 16, 8, 8, 1, 1⟩, padding.none⟩,
    get_users := [],
    get_dependencies :=
      [data_node ⟨data_types.f32, format.bfyx, ⟨1, 8, 10, 10, 1, 1⟩, padding.none⟩,
       data_node weights_layout, data_node weights_layout,
       data_node bias_layout, data_node bias_layout],
    get_output_layout := ⟨data_types.f32, format.bfyx, ⟨1, 16, 8, 8, 1, 1⟩, padding.none⟩,
    get_split := 2, get_groups := 1 }

/-- Two groups with weights (8, 4, 3, 3) and a bias of 8 features each. -/
def example_grouped_valid : convolution_node :=
  example_grouped ⟨data_types.f32, format.bfyx, ⟨8, 4, 3, 3, 1, 1⟩, padding.none⟩
    ⟨data_types.f32, format.bfyx, ⟨1, 8, 1, 1, 1, 1⟩, padding.none⟩

/-- Two groups with a bias of 16 features each, where 16 / 2 = 8 are expected. -/
def example_grouped_bias_16 : convolution_node :=
  example_grouped ⟨data_types.f32, format.bfyx, ⟨8, 4, 3, 3, 1, 1⟩, padding.none⟩
    ⟨data_types.f32, format.bfyx, ⟨1, 16, 1, 1, 1, 1⟩, padding.none⟩

/-- Two groups with a bias of 8 features and the spatial extent 2 on X. -/
def example_grouped_bias_x2 : convolution_node :=
  example_grouped ⟨data_types.f32, format.bfyx, ⟨8, 4, 3, 3, 1, 1⟩, padding.none⟩
    ⟨data_types.f32, format.bfyx, ⟨1, 8, 2, 1, 1, 1⟩, padding.none⟩

/-- Two groups whose weights expect 8 input features each, where (8 - 0) / 2 = 4 are
there. -/
def example_grouped_weights_8 : convolution_node :=
  example_grouped ⟨data_types.f32, format.bfyx, ⟨8, 8, 3, 3, 1, 1⟩, padding.none⟩
    ⟨data_types.f32, format.bfyx, ⟨1, 8, 1, 1, 1, 1⟩, padding.none⟩

/-- An input of extent 8 x 8 with the input offset `2^30` on X: twice the offset is
`2^31`, outside the range of `int32_t`.  The descriptor carries the output size. -/
def example_offset_overflow : convolution_node :=
  example_node
    { example_desc ⟨0, 0, 1073741824, 0, 0, 1⟩ ⟨1, 1, 1, 1, 1, 1⟩ ⟨1, 1, 1, 1, 1, 1⟩ with
      with_output_size := true, output_size := ⟨1, 1, 1, 1, 1, 1⟩ }
    ⟨data_types.f32, format.bfyx, ⟨1, 1, 8, 8, 1, 1⟩, padding.none⟩
    ⟨data_types.f32, format.bfyx, ⟨1, 1, 1, 1, 1, 1⟩, padding.none⟩

/-! ## Lemmas on the checks -/

/-- Twice a value between `-2^30` and `2^30 - 1` does not overflow: the `int32_t`
product is the product of the integers. -/
theorem int32_mul_two_of_range (x : Int) (h1 : -1073741824 ≤ x) (h2 : x < 1073741824) :
    int32_mul 2 x = 2 * x := by
  unfold int32_mul
  omega


theorem CLDNN_ERROR_LESS_OR_EQUAL_THAN_ok_iff (id n : String) (v : Int) (cn : String) (cv : Int)
    (m : String) : CLDNN_ERROR_LESS_OR_EQUAL_THAN id n v cn cv m = .ok () ↔ cv < v := by
  unfold CLDNN_ERROR_LESS_OR_EQUAL_THAN
  split_ifs with h
  · simp; omega
  · simp; omega

theorem CLDNN_ERROR_GREATER_THAN_ok_iff (id n : String) (v : Int) (cn : String) (cv : Int)
    (m : String) : CLDNN_ERROR_GREATER_THAN id n v cn cv m = .ok () ↔ v ≤ cv := by
  unfold CLDNN_ERROR_GREATER_THAN
  split_ifs with h
  · simp; omega
  · simp; omega

theorem CLDNN_ERROR_NOT_EQUAL_ok_iff (id n : String) (v : Int) (cn : String) (cv : Int)
    (m : String) : CLDNN_ERROR_NOT_EQUAL id n v cn cv m = .ok () ↔ v = cv := by
  unfold CLDNN_ERROR_NOT_EQUAL
  split_ifs with h
  · simp; exact h
  · simp; exact not_not.mp h

theorem CLDNN_ERROR_LESS_THAN_ok_iff (id n : String) (v : Int) (cn : String) (cv : Int)
    (m : String) : CLDNN_ERROR_LESS_THAN id n v cn cv m = .ok () ↔ cv ≤ v := by
  unfold CLDNN_ERROR_LESS_THAN
  split_ifs with h
  · simp; omega
  · simp; omega

/-- A sequence `check; rest` returns a value exactly when the check passes and the rest
returns that value. -/
theorem check_bind_ok_iff {α : Type} (c : Except validation_error Unit)
    (f : Unit → Except validation_error α) (a : α) :
    (c >>= f) = .ok a ↔ c = .ok () ∧ f () = .ok a := by
  cases c with
  | error e => simp [bind, Except.bind]
  | ok u => cases u; simp [bind, Except.bind]

/-- A sequence `check; rest` whose check passes is the rest. -/
theorem check_bind_of_ok {α : Type} (c : Except validation_error Unit)
    (f : Unit → Except validation_error α) (h : c = .ok ()) : (c >>= f) = f () := by
  subst h; rfl

/-- A sequence `check; rest` whose check fails fails with the error of the check. -/
theorem check_bind_of_error {α : Type} (c : Except validation_error Unit)
    (f : Unit → Except validation_error α) (e : validation_error) (h : c = .error e) :
    (c >>= f) = .error e := by
  subst h; rfl

/-- A computation either returns a value or fails. -/
theorem ok_or_error {α : Type} (x : Except validation_error α) :
    (∃ a, x = .ok a) ∨ (∃ e, x = .error e) := by
  cases x with
  | error e => exact Or.inr ⟨e, rfl⟩
  | ok a => exact Or.inl ⟨a, rfl⟩

/-- The general parameter verification passes exactly when stride and dilation are
positive on X and Y, twice the offset (as an `int32_t` product) does not exceed the
input extent on X and Y, the
feature and batch offsets are zero and, for a `bfzyx` input, stride and dilation are
positive on Z and twice the Z offset does not exceed `spatial[1]` of the input. -/
theorem verify_parameters_ok_iff (node : convolution_node) :
    calc_output_layout.verify_parameters node = .ok () ↔
      0 < node.get_primitive.stride.spatial0 ∧ 0 < node.get_primitive.stride.spatial1 ∧
      0 < node.get_primitive.dilation.spatial0 ∧ 0 < node.get_primitive.dilation.spatial1 ∧
      int32_mul 2 node.get_primitive.input_offset.spatial0 ≤
        node.input.get_output_layout.size.spatial0 ∧
      int32_mul 2 node.get_primitive.input_offset.spatial1 ≤
        node.input.get_output_layout.size.spatial1 ∧
      node.get_primitive.input_offset.feature0 = 0 ∧
      node.get_primitive.input_offset.batch0 = 0 ∧
      (node.input.get_output_layout.format = format.bfzyx →
        0 < node.get_primitive.stride.spatial2 ∧ 0 < node.get_primitive.dilation.spatial2 ∧
        int32_mul 2 node.get_primitive.input_offset.spatial2 ≤
          node.input.get_output_layout.size.spatial1) := by
  unfold calc_output_layout.verify_parameters
  simp only [check_bind_ok_iff, CLDNN_ERROR_LESS_OR_EQUAL_THAN_ok_iff,
    CLDNN_ERROR_GREATER_THAN_ok_iff, CLDNN_ERROR_NOT_EQUAL_ok_iff]
  split_ifs with h
  · simp only [check_bind_ok_iff, CLDNN_ERROR_LESS_OR_EQUAL_THAN_ok_iff,
      CLDNN_ERROR_GREATER_THAN_ok_iff, h, true_implies]
  · simp [h, pure, Except.pure]

/-- The format check passes exactly when the input format is none of the Winograd
weights formats. -/
theorem verify_input_format_ok_iff (node : convolution_node) :
    calc_output_layout.verify_input_format node = .ok () ↔
      node.input.get_output_layout.format ∉ winograd_weights_formats := by
  simp only [calc_output_layout.verify_input_format, winograd_weights_formats,
    CLDNN_ERROR_MESSAGE, List.mem_cons, List.mem_singleton, List.not_mem_nil, or_false]
  split_ifs with h
  · simp only [h, not_true_eq_false, reduceCtorEq]
  · simp only [h, not_false_eq_true, pure, Except.pure]

/-- The format check fails, with the message of line 151, when the input format is one
of the Winograd weights formats. -/
theorem verify_input_format_error (node : convolution_node)
    (h : node.input.get_output_layout.format ∈ winograd_weights_formats) :
    calc_output_layout.verify_input_format node = .error ⟨node.id, .message, "", 0, "", 0,
      "Input for convolution should not be in windograd weights format - it is reserved for weights only"⟩ := by
  simp only [winograd_weights_formats, List.mem_cons, List.mem_singleton, List.not_mem_nil,
    or_false] at h
  simp only [calc_output_layout.verify_input_format, CLDNN_ERROR_MESSAGE, if_pos h]

/-- The three paths of `calc_output_layout` behind the two verifications. -/
theorem calc_output_layout_of_verified (swor : sliding_window_range) (node : convolution_node)
    (hp : calc_output_layout.verify_parameters node = .ok ())
    (hf : calc_output_layout.verify_input_format node = .ok ()) :
    calc_output_layout swor node =
      if node.input.get_output_layout.format = format.winograd_2x3_s1_data then
        calc_output_layout.winograd_layout node (calc_output_layout.output_type node)
      else if node.get_primitive.with_output_size then
        calc_output_layout.user_defined_layout node (calc_output_layout.output_type node)
      else
        calc_output_layout.default_layout swor node (calc_output_layout.output_type node) := by
  unfold calc_output_layout
  simp only [hp, hf, bind, Except.bind]

/-- A returned layout implies that both verifications passed. -/
theorem verified_of_calc_output_layout_ok (swor : sliding_window_range)
    (node : convolution_node) (l : layout) (h : calc_output_layout swor node = .ok l) :
    calc_output_layout.verify_parameters node = .ok () ∧
      calc_output_layout.verify_input_format node = .ok () := by
  unfold calc_output_layout at h
  simp only [check_bind_ok_iff] at h
  exact ⟨h.1, h.2.1⟩

/-- A failed parameter verification is the failure of `calc_output_layout`. -/
theorem calc_output_layout_of_verify_parameters_error (swor : sliding_window_range)
    (node : convolution_node) (e : validation_error)
    (h : calc_output_layout.verify_parameters node = .error e) :
    calc_output_layout swor node = .error e := by
  unfold calc_output_layout
  simp only [h, bind, Except.bind]

/-- A guarded `CLDNN_ERROR_MESSAGE` passes exactly when its guard is false. -/
theorem message_guard_ok_iff (c : Prop) [Decidable c] (id m : String) :
    (if c then CLDNN_ERROR_MESSAGE id m else .ok ()) = .ok () ↔ ¬ c := by
  unfold CLDNN_ERROR_MESSAGE
  split_ifs with h
  · simp only [h, not_true_eq_false, reduceCtorEq]
  · simp only [h, not_false_eq_true]

/-- The Winograd branch returns a layout exactly when each of its checks passes, and
the layout is the one of lines 210-216. -/
theorem winograd_layout_ok_iff (node : convolution_node) (t : data_types) (l : layout) :
    calc_output_layout.winograd_layout node t = .ok l ↔
      (node.get_primitive.weights.length : Int) = 1 ∧
      node.get_primitive.stride.spatial0 = 1 ∧ node.get_primitive.stride.spatial1 = 1 ∧
      node.get_primitive.dilation.spatial0 = 1 ∧ node.get_primitive.dilation.spatial1 = 1 ∧
      Int.tmod node.input.get_output_layout.size.feature0 32 = 0 ∧
      Int.tmod (node.weights 0).get_output_layout.size.batch0 32 = 0 ∧
      3 ≤ node.input.get_output_layout.size.spatial0 ∧
      3 ≤ node.input.get_output_layout.size.spatial1 ∧
      l = { data_type := t,
            format := node.input.get_output_layout.format,
            size := tensor.of4 node.input.get_output_layout.size.batch0
              ((node.weights 0).get_output_layout.size.batch0 *
                (node.weights 0).get_output_layout.size.group0)
              node.input.get_output_layout.size.spatial0
              (node.input.get_output_layout.size.spatial1 - 3 + 1),
            data_padding := node.input.get_output_layout.data_padding } := by
  simp only [calc_output_layout.winograd_layout, check_bind_ok_iff,
    CLDNN_ERROR_NOT_EQUAL_ok_iff, CLDNN_ERROR_LESS_THAN_ok_iff, message_guard_ok_iff,
    not_not, pure, Except.pure, Except.ok.injEq]
  constructor
  · rintro ⟨h1, h2, h3, h4, h5, h6, h7, h8, h9, h10⟩
    exact ⟨h1, h2, h3, h4, h5, h6, h7, h8, h9, h10.symm⟩
  · rintro ⟨h1, h2, h3, h4, h5, h6, h7, h8, h9, h10⟩
    exact ⟨h1, h2, h3, h4, h5, h6, h7, h8, h9, h10.symm⟩

/-- The branch of the user-defined output size returns the layout of lines 243-252 when
the three spatial extents are positive. -/
theorem user_defined_layout_of_pos (node : convolution_node) (t : data_types)
    (hx : 0 < node.get_primitive.output_size.spatial0)
    (hy : 0 < node.get_primitive.output_size.spatial1)
    (hz : 0 < node.get_primitive.output_size.spatial2) :
    calc_output_layout.user_defined_layout node t =
      .ok (layout.of3 t
        (if t = data_types.bin then format.b_fs_yx_32fp
          else node.input.get_output_layout.format)
        (tensor.of5 node.input.get_output_layout.size.batch0
          node.get_primitive.output_size.feature0 node.get_primitive.output_size.spatial0
          node.get_primitive.output_size.spatial1 node.get_primitive.output_size.spatial2)) := by
  have h1 := (CLDNN_ERROR_LESS_OR_EQUAL_THAN_ok_iff node.id "User defined output spatial X"
    node.get_primitive.output_size.spatial0 "value" 0 "must be positive(>= 1)").mpr hx
  have h2 := (CLDNN_ERROR_LESS_OR_EQUAL_THAN_ok_iff node.id "User defined output spatial Y"
    node.get_primitive.output_size.spatial1 "value" 0 "must be positive(>= 1)").mpr hy
  have h3 := (CLDNN_ERROR_LESS_OR_EQUAL_THAN_ok_iff node.id "User defined output spatial Z"
    node.get_primitive.output_size.spatial2 "value" 0 "must be positive(>= 1)").mpr hz
  simp only [calc_output_layout.user_defined_layout, h1, h2, h3, check_bind_of_ok]
  split_ifs <;> rfl

/-- The branch of the user-defined output size fails at the first spatial extent, in
the order X, Y, Z, that is not positive. -/
theorem user_defined_layout_of_nonpos (node : convolution_node) (t : data_types)
    (h : node.get_primitive.output_size.spatial0 ≤ 0 ∨
      node.get_primitive.output_size.spatial1 ≤ 0 ∨
      node.get_primitive.output_size.spatial2 ≤ 0) :
    calc_output_layout.user_defined_layout node t =
      .error
        (if node.get_primitive.output_size.spatial0 ≤ 0 then
          ⟨node.id, .less_or_equal_than, "User defined output spatial X",
            node.get_primitive.output_size.spatial0, "value", 0, "must be positive(>= 1)"⟩
        else if node.get_primitive.output_size.spatial1 ≤ 0 then
          ⟨node.id, .less_or_equal_than, "User defined output spatial Y",
            node.get_primitive.output_size.spatial1, "value", 0, "must be positive(>= 1)"⟩
        else
          ⟨node.id, .less_or_equal_than, "User defined output spatial Z",
            node.get_primitive.output_size.spatial2, "value", 0, "must be positive(>= 1)"⟩) := by
  simp only [calc_output_layout.user_defined_layout, CLDNN_ERROR_LESS_OR_EQUAL_THAN, bind,
    Except.bind]
  by_cases hx : node.get_primitive.output_size.spatial0 ≤ 0
  · simp only [hx, if_true]
  · by_cases hy : node.get_primitive.output_size.spatial1 ≤ 0
    · simp only [hx, hy, if_true, if_false]
    · have hz : node.get_primitive.output_size.spatial2 ≤ 0 := by
        rcases h with h | h | h
        · exact absurd h hx
        · exact absurd h hy
        · exact h
      simp only [hx, hy, hz, if_true, if_false]

/-- Every return of lines 272-310 carries the given output type and output size. -/
theorem select_layout_type_size (node : convolution_node) (t : data_types) (s : tensor) :
    (calc_output_layout.select_layout node t s).data_type = t ∧
      (calc_output_layout.select_layout node t s).size = s := by
  unfold calc_output_layout.select_layout
  simp only
  repeat' split
  all_goals exact ⟨rfl, rfl⟩

/-- Line 272: for the output type `bin` the format is `b_fs_yx_32fp`. -/
theorem select_layout_of_bin (node : convolution_node) (s : tensor) :
    calc_output_layout.select_layout node data_types.bin s =
      layout.of3 data_types.bin format.b_fs_yx_32fp s := by
  simp only [calc_output_layout.select_layout, if_true]

/-- The default path returns what `select_layout` gives for the output range of the
helper, when the helper returns one. -/
theorem default_layout_of_range (swor : sliding_window_range) (node : convolution_node)
    (t : data_types) (r : tensor)
    (hr : swor node.input.get_output_layout.size (node.weights 0).get_output_layout.size
      node.get_primitive.input_offset node.get_primitive.stride node.get_primitive.dilation
      true 1 = .ok r) :
    calc_output_layout.default_layout swor node t =
      .ok (calc_output_layout.select_layout node t
        (tensor.of5 node.input.get_output_layout.size.batch0
          (if node.get_primitive.output_size.feature0 ≠ 0
            then node.get_primitive.output_size.feature0
            else (node.weights 0).get_output_layout.size.batch0 *
              (node.weights 0).get_output_layout.size.group0)
          r.spatial0 r.spatial1 r.spatial2)) := by
  simp only [calc_output_layout.default_layout, hr, bind, Except.bind, pure, Except.pure]

/-- The default path returns a layout only if the helper returned an output range, and
the layout is then the one `select_layout` gives. -/
theorem default_layout_ok_iff (swor : sliding_window_range) (node : convolution_node)
    (t : data_types) (l : layout) :
    calc_output_layout.default_layout swor node t = .ok l ↔
      ∃ r, swor node.input.get_output_layout.size (node.weights 0).get_output_layout.size
          node.get_primitive.input_offset node.get_primitive.stride
          node.get_primitive.dilation true 1 = .ok r ∧
        l = calc_output_layout.select_layout node t
          (tensor.of5 node.input.get_output_layout.size.batch0
            (if node.get_primitive.output_size.feature0 ≠ 0
              then node.get_primitive.output_size.feature0
              else (node.weights 0).get_output_layout.size.batch0 *
                (node.weights 0).get_output_layout.size.group0)
            r.spatial0 r.spatial1 r.spatial2) := by
  constructor
  · intro h
    rcases ok_or_error (swor node.input.get_output_layout.size
      (node.weights 0).get_output_layout.size node.get_primitive.input_offset
      node.get_primitive.stride node.get_primitive.dilation true 1) with ⟨r, hr⟩ | ⟨e, he⟩
    · refine ⟨r, hr, ?_⟩
      rw [default_layout_of_range swor node t r hr] at h
      exact (Except.ok.inj h).symm
    · simp only [calc_output_layout.default_layout, he, bind, Except.bind, reduceCtorEq] at h
  · rintro ⟨r, hr, rfl⟩
    exact default_layout_of_range swor node t r hr

/-- Every layout that `calc_output_layout` returns carries the output type of lines
48-62. -/
theorem data_type_of_calc_output_layout_ok (swor : sliding_window_range)
    (node : convolution_node) (l : layout) (h : calc_output_layout swor node = .ok l) :
    l.data_type = calc_output_layout.output_type node := by
  obtain ⟨hp, hf⟩ := verified_of_calc_output_layout_ok swor node l h
  rw [calc_output_layout_of_verified swor node hp hf] at h
  split_ifs at h with hw hs
  · rw [winograd_layout_ok_iff] at h
    rw [h.2.2.2.2.2.2.2.2.2]
  · unfold calc_output_layout.user_defined_layout at h
    simp only [check_bind_ok_iff] at h
    obtain ⟨_, _, _, h⟩ := h
    split_ifs at h
    all_goals
      simp only [pure, Except.pure, Except.ok.injEq] at h
      rw [← h]
      rfl
  · rw [default_layout_ok_iff] at h
    obtain ⟨r, _, rfl⟩ := h
    exact (select_layout_type_size node _ _).1

/-- The output type of lines 48-62, written as one case distinction. -/
theorem output_type_eq (node : convolution_node) :
    calc_output_layout.output_type node =
      if node.has_fused_primitives = true then node.get_fused_output_layout.data_type
      else if node.input.get_output_layout.data_type = data_types.i8 ∨
          node.input.get_output_layout.data_type = data_types.u8 then data_types.f32
      else node.input.get_output_layout.data_type := by
  unfold calc_output_layout.output_type
  by_cases hfused : node.has_fused_primitives = true
  · simp [hfused]
  · by_cases h8 : node.input.get_output_layout.data_type = data_types.i8 ∨
        node.input.get_output_layout.data_type = data_types.u8
    · have h8' : node.input.get_output_layout.data_type = data_types.u8 ∨
          node.input.get_output_layout.data_type = data_types.i8 := h8.symm
      simp [hfused, h8, h8']
    · have h8' : ¬ (node.input.get_output_layout.data_type = data_types.u8 ∨
          node.input.get_output_layout.data_type = data_types.i8) := fun h => h8 h.symm
      simp [hfused, h8, h8']

/-- On the default path the layout is what `select_layout` gives for the output range
that the helper returned. -/
theorem calc_output_layout_default (swor : sliding_window_range) (node : convolution_node)
    (r : tensor)
    (hp : calc_output_layout.verify_parameters node = .ok ())
    (hf : node.input.get_output_layout.format ∉ winograd_weights_formats)
    (hw : node.input.get_output_layout.format ≠ format.winograd_2x3_s1_data)
    (hs : node.get_primitive.with_output_size = false)
    (hr : swor node.input.get_output_layout.size (node.weights 0).get_output_layout.size
      node.get_primitive.input_offset node.get_primitive.stride node.get_primitive.dilation
      true 1 = .ok r) :
    calc_output_layout swor node =
      .ok (calc_output_layout.select_layout node (calc_output_layout.output_type node)
        (tensor.of5 node.input.get_output_layout.size.batch0
          (if node.get_primitive.output_size.feature0 ≠ 0
            then node.get_primitive.output_size.feature0
            else (node.weights 0).get_output_layout.size.batch0 *
              (node.weights 0).get_output_layout.size.group0)
          r.spatial0 r.spatial1 r.spatial2)) := by
  rw [calc_output_layout_of_verified swor node hp ((verify_input_format_ok_iff node).mpr hf),
    if_neg hw, hs]
  simp only [Bool.false_eq_true, if_false]
  exact default_layout_of_range swor node _ r hr

/-- Behind the two verifications, with a user-defined output size and an input that
is not in `winograd_2x3_s1_data`, the function is the branch of lines 224-252. -/
theorem calc_output_layout_user_defined (swor : sliding_window_range)
    (node : convolution_node)
    (hp : calc_output_layout.verify_parameters node = .ok ())
    (hf : node.input.get_output_layout.format ∉ winograd_weights_formats)
    (hw : node.input.get_output_layout.format ≠ format.winograd_2x3_s1_data)
    (hs : node.get_primitive.with_output_size = true) :
    calc_output_layout swor node =
      calc_output_layout.user_defined_layout node (calc_output_layout.output_type node) := by
  rw [calc_output_layout_of_verified swor node hp ((verify_input_format_ok_iff node).mpr hf),
    if_neg hw, if_pos hs]

/-- A sequence `CLDNN_ERROR_LESS_OR_EQUAL_THAN ...; rest` is the error of the check when
the value is not above the bound, and the rest otherwise. -/
theorem less_or_equal_than_bind {α : Type} (id n : String) (v : Int) (cn : String) (cv : Int)
    (m : String) (f : Unit → Except validation_error α) :
    (CLDNN_ERROR_LESS_OR_EQUAL_THAN id n v cn cv m >>= f) =
      if v ≤ cv then .error ⟨id, .less_or_equal_than, n, v, cn, cv, m⟩ else f () := by
  unfold CLDNN_ERROR_LESS_OR_EQUAL_THAN
  split_ifs <;> rfl

/-- A sequence `CLDNN_ERROR_GREATER_THAN ...; rest` is the error of the check when the
value is above the bound, and the rest otherwise. -/
theorem greater_than_bind {α : Type} (id n : String) (v : Int) (cn : String) (cv : Int)
    (m : String) (f : Unit → Except validation_error α) :
    (CLDNN_ERROR_GREATER_THAN id n v cn cv m >>= f) =
      if v > cv then .error ⟨id, .greater_than, n, v, cn, cv, m⟩ else f () := by
  unfold CLDNN_ERROR_GREATER_THAN
  split_ifs <;> rfl

/-- A sequence `CLDNN_ERROR_NOT_EQUAL ...; rest` is the error of the check when the two
values differ, and the rest otherwise. -/
theorem not_equal_bind {α : Type} (id n : String) (v : Int) (cn : String) (cv : Int)
    (m : String) (f : Unit → Except validation_error α) :
    (CLDNN_ERROR_NOT_EQUAL id n v cn cv m >>= f) =
      if v ≠ cv then .error ⟨id, .not_equal, n, v, cn, cv, m⟩ else f () := by
  unfold CLDNN_ERROR_NOT_EQUAL
  split_ifs <;> rfl

/-- A sequence `CLDNN_ERROR_LESS_THAN ...; rest` is the error of the check when the
value is below the bound, and the rest otherwise. -/
theorem less_than_bind {α : Type} (id n : String) (v : Int) (cn : String) (cv : Int)
    (m : String) (f : Unit → Except validation_error α) :
    (CLDNN_ERROR_LESS_THAN id n v cn cv m >>= f) =
      if v < cv then .error ⟨id, .less_than, n, v, cn, cv, m⟩ else f () := by
  unfold CLDNN_ERROR_LESS_THAN
  split_ifs <;> rfl

/-- The general parameter verification, written as the list of its checks in the order
of lines 65-142: the first check that fails gives the error. -/
theorem verify_parameters_eq (node : convolution_node) :
    calc_output_layout.verify_parameters node =
      if node.get_primitive.stride.spatial0 ≤ 0 then
        .error ⟨node.id, .less_or_equal_than, "Stride spatial X",
          node.get_primitive.stride.spatial0, "value", 0,
          "Stride spatial X must be positive (>= 1)"⟩
      else if node.get_primitive.stride.spatial1 ≤ 0 then
        .error ⟨node.id, .less_or_equal_than, "Stride spatial Y",
          node.get_primitive.stride.spatial1, "value", 0,
          "Stride spatial Y must be positive (>= 1)"⟩
      else if node.get_primitive.dilation.spatial0 ≤ 0 then
        .error ⟨node.id, .less_or_equal_than, "Dilatation spatial X",
          node.get_primitive.dilation.spatial0, "value", 0,
          "Dilatation patial X must be positive (>= 1)"⟩
      else if node.get_primitive.dilation.spatial1 ≤ 0 then
        .error ⟨node.id, .less_or_equal_than, "Dilatation spatial Y",
          node.get_primitive.dilation.spatial1, "value", 0,
          "Dilatation spatial Y must be positive (>= 1)"⟩
      else if int32_mul 2 node.get_primitive.input_offset.spatial0 >
          node.input.get_output_layout.size.spatial0 then
        .error ⟨node.id, .greater_than, "Input offset spatial X",
          int32_mul 2 node.get_primitive.input_offset.spatial0, "input layout spatial X",
          node.input.get_output_layout.size.spatial0, "There is no input data to process"⟩
      else if int32_mul 2 node.get_primitive.input_offset.spatial1 >
          node.input.get_output_layout.size.spatial1 then
        .error ⟨node.id, .greater_than, "Input offset spatial Y",
          int32_mul 2 node.get_primitive.input_offset.spatial1, "input layout spatial Y",
          node.input.get_output_layout.size.spatial1, "There is no input data to process"⟩
      else if node.get_primitive.input_offset.feature0 ≠ 0 then
        .error ⟨node.id, .not_equal, "Input offset feature",
          node.get_primitive.input_offset.feature0, "", 0,
          "Input offset in feature is not supported"⟩
      else if node.get_primitive.input_offset.batch0 ≠ 0 then
        .error ⟨node.id, .not_equal, "Input offset batch",
          node.get_primitive.input_offset.batch0, "", 0,
          "Input offset in batch is not supported"⟩
      else if node.input.get_output_layout.format = format.bfzyx then
        if node.get_primitive.stride.spatial2 ≤ 0 then
          .error ⟨node.id, .less_or_equal_than, "Stride spatial Z",
            node.get_primitive.stride.spatial2, "value", 0,
            "Stride spatial Z must be positive (>= 1)"⟩
        else if node.get_primitive.dilation.spatial2 ≤ 0 then
          .error ⟨node.id, .less_or_equal_than, "Dilatation spatial Z",
            node.get_primitive.dilation.spatial2, "value", 0,
            "Dilatation spatial Z must be positive (>= 1)"⟩
        else if int32_mul 2 node.get_primitive.input_offset.spatial2 >
            node.input.get_output_layout.size.spatial1 then
          .error ⟨node.id, .greater_than, "Input offset spatial Z",
            int32_mul 2 node.get_primitive.input_offset.spatial2, "input layout spatial Z",
            node.input.get_output_layout.size.spatial1, "There is no input data to process"⟩
        else .ok ()
      else .ok () := by
  simp only [calc_output_layout.verify_parameters, less_or_equal_than_bind,
    greater_than_bind, not_equal_bind]
  rfl

/-- A computation that does not return a value fails. -/
theorem error_of_not_ok {α : Type} (x : Except validation_error α)
    (h : ∀ a, x ≠ .ok a) : ∃ e, x = .error e := by
  rcases ok_or_error x with ⟨a, ha⟩ | he
  · exact absurd ha (h a)
  · exact he

/-- The test `next_is_dw` as the Boolean of lines 288-289. -/
theorem next_is_dw_iff (user : program_node) (f : Int) :
    ((decide (user.get_split > 1) && decide (user.get_split = f)) ||
      (decide (to_int32 user.get_groups > 1) && decide (to_int32 user.get_groups = f))) = true ↔
      calc_output_layout.next_is_dw user f := by
  simp only [calc_output_layout.next_is_dw, Bool.or_eq_true, Bool.and_eq_true,
    decide_eq_true_eq]

/-- Lines 278-281: the first-layer rule, behind the test of `bin`. -/
theorem select_layout_of_first_layer (node : convolution_node) (t : data_types) (s : tensor)
    (ht : t ≠ data_types.bin) (h1 : calc_output_layout.first_layer node) :
    calc_output_layout.select_layout node t s =
      layout.of3 t format.fs_bs_yx_bsv4_fsv32 s := by
  unfold calc_output_layout.first_layer at h1
  simp only [calc_output_layout.select_layout, if_neg ht, if_pos h1]

/-- Lines 283-310 when the node does not have exactly one user: the format of the
input is kept. -/
theorem select_layout_of_users (node : convolution_node) (t : data_types) (s : tensor)
    (ht : t ≠ data_types.bin) (h1 : ¬ calc_output_layout.first_layer node)
    (hu : node.get_users.length ≠ 1) :
    calc_output_layout.select_layout node t s =
      layout.of3 t node.input.get_output_layout.format s := by
  unfold calc_output_layout.first_layer at h1
  simp only [calc_output_layout.select_layout, if_neg ht, if_neg h1]
  split
  · rename_i user huser
    rw [huser] at hu
    exact absurd rfl hu
  · rfl

/-- Lines 283-310 when the single user is not a convolution: the format of the input
is kept. -/
theorem select_layout_of_user_type (node : convolution_node) (t : data_types) (s : tensor)
    (user : program_node)
    (ht : t ≠ data_types.bin) (h1 : ¬ calc_output_layout.first_layer node)
    (hu : node.get_users = [user])
    (hc : user.is_type primitive_type_id.convolution = false) :
    calc_output_layout.select_layout node t s =
      layout.of3 t node.input.get_output_layout.format s := by
  unfold calc_output_layout.first_layer at h1
  simp only [calc_output_layout.select_layout, if_neg ht, if_neg h1, hu, hc,
    Bool.false_eq_true, if_false]

/-- Lines 291-293: the rule of the depthwise consumer. -/
theorem select_layout_of_next_is_dw (node : convolution_node) (t : data_types) (s : tensor)
    (user : program_node)
    (ht : t ≠ data_types.bin)
    (hu : node.get_users = [user])
    (hc : user.is_type primitive_type_id.convolution = true)
    (hi : node.input.get_output_layout.data_type = data_types.i8)
    (hf : node.input.get_output_layout.format = format.b_fs_yx_fsv4)
    (hdw : calc_output_layout.next_is_dw user s.feature0) :
    calc_output_layout.select_layout node t s = layout.of3 t format.byxf_af32 s := by
  have h1 : ¬ (node.input.get_output_layout.data_type = data_types.i8 ∧
      node.input.get_output_layout.format = format.byx8_f4 ∧
      Int.tmod node.input.get_output_layout.size.batch0 4 = 0 ∧
      node.input.get_output_layout.size.feature0 = 3) := by
    rintro ⟨_, h, _⟩
    rw [hf] at h
    exact absurd h (by decide)
  have hb := (next_is_dw_iff user s.feature0).mpr hdw
  simp only [calc_output_layout.select_layout, if_neg ht, if_neg h1]
  simp only [hu, hc, if_true, hi, hf, hb, and_self]

/-- Lines 295-308: the rule of the predecessor convolution. -/
theorem select_layout_of_prev_convolution (node : convolution_node) (t : data_types)
    (s : tensor) (user p q : program_node)
    (ht : t ≠ data_types.bin)
    (hu : node.get_users = [user])
    (hc : user.is_type primitive_type_id.convolution = true)
    (hi : node.input.get_output_layout.data_type = data_types.i8)
    (hf : node.input.get_output_layout.format = format.byxf_af32)
    (hdw : ¬ calc_output_layout.next_is_dw user s.feature0)
    (hp : calc_output_layout.prev_node node = some p)
    (hpc : p.is_type primitive_type_id.convolution = true)
    (hq : p.get_dependencies.head? = some q)
    (hqf : q.get_output_layout.format = format.b_fs_yx_fsv4) :
    calc_output_layout.select_layout node t s = layout.of3 t format.b_fs_yx_fsv4 s := by
  have h1 : ¬ (node.input.get_output_layout.data_type = data_types.i8 ∧
      node.input.get_output_layout.format = format.byx8_f4 ∧
      Int.tmod node.input.get_output_layout.size.batch0 4 = 0 ∧
      node.input.get_output_layout.size.feature0 = 3) := by
    rintro ⟨_, h, _⟩
    rw [hf] at h
    exact absurd h (by decide)
  have hb : ((decide (user.get_split > 1) && decide (user.get_split = s.feature0)) ||
      (decide (to_int32 user.get_groups > 1) &&
        decide (to_int32 user.get_groups = s.feature0))) = false := by
    rw [← Bool.not_eq_true, next_is_dw_iff]
    exact hdw
  simp only [calc_output_layout.select_layout, if_neg ht, if_neg h1]
  simp only [hu, hc, if_true, hi, hf, hb, Bool.false_eq_true, and_false, if_false, true_and]
  unfold calc_output_layout.prev_node at hp
  cases hd : node.get_dependencies with
  | nil => rw [hd] at hp; exact absurd hp (by simp)
  | cons d ds =>
    rw [hd] at hp
    simp only at hp
    simp only [hp]
    cases hpd : p.get_dependencies with
    | nil => rw [hpd] at hq; exact absurd hq (by simp)
    | cons q2 qs =>
      rw [hpd] at hq
      simp only [List.head?_cons, Option.some.injEq] at hq
      subst hq
      simp only [hpc, hqf, if_true]

/-- Lines 276-310 when none of the three rules matches: the format of the input is
kept. -/
theorem select_layout_of_no_rule (node : convolution_node) (t : data_types) (s : tensor)
    (ht : t ≠ data_types.bin) (h1 : ¬ calc_output_layout.first_layer node)
    (hdw : ∀ user, node.get_users = [user] →
      user.is_type primitive_type_id.convolution = true →
      ¬ (node.input.get_output_layout.data_type = data_types.i8 ∧
        node.input.get_output_layout.format = format.b_fs_yx_fsv4 ∧
        calc_output_layout.next_is_dw user s.feature0))
    (hprev : ∀ user p q, node.get_users = [user] →
      user.is_type primitive_type_id.convolution = true →
      calc_output_layout.prev_node node = some p →
      p.is_type primitive_type_id.convolution = true →
      p.get_dependencies.head? = some q →
      ¬ (node.input.get_output_layout.data_type = data_types.i8 ∧
        node.input.get_output_layout.format = format.byxf_af32 ∧
        ¬ calc_output_layout.next_is_dw user s.feature0 ∧
        q.get_output_layout.format = format.b_fs_yx_fsv4)) :
    calc_output_layout.select_layout node t s =
      layout.of3 t node.input.get_output_layout.format s := by
  by_cases hlen : node.get_users.length = 1
  swap
  · exact select_layout_of_users node t s ht h1 hlen
  obtain ⟨user, hu⟩ := List.length_eq_one.mp hlen
  by_cases hc : user.is_type primitive_type_id.convolution = true
  swap
  · exact select_layout_of_user_type node t s user ht h1 hu (Bool.not_eq_true _ ▸ hc)
  have hdw1 := hdw user hu hc
  have hprev1 := fun p q => hprev user p q hu hc
  rw [← next_is_dw_iff] at hdw1
  simp only [← next_is_dw_iff, Bool.not_eq_true] at hprev1
  have hpn : calc_output_layout.prev_node node =
      match node.get_dependencies with
      | [] => none
      | prev_node :: _ =>
        if prev_node.is_type primitive_type_id.reorder then prev_node.get_dependencies.head?
        else some prev_node := rfl
  unfold calc_output_layout.first_layer at h1
  simp only [calc_output_layout.select_layout, if_neg ht, if_neg h1]
  simp only [hu, hc, if_true, if_neg hdw1]
  cases hd : node.get_dependencies with
  | nil => rfl
  | cons d ds =>
    rw [hd] at hpn
    simp only at hpn
    simp only
    cases hpo : (if d.is_type primitive_type_id.reorder = true then d.get_dependencies.head?
        else some d) with
    | none => rfl
    | some p =>
      rw [hpo] at hpn
      simp only
      cases hpc : p.is_type primitive_type_id.convolution with
      | false => rfl
      | true =>
        cases hpd : p.get_dependencies with
        | nil => rfl
        | cons q qs =>
          have hq : p.get_dependencies.head? = some q := by rw [hpd]; rfl
          simp only [if_neg (hprev1 p q hpn hpc hq)]

/-- An input that is in none of the Winograd formats, as the default path needs it,
when its format is one of the formats of the heuristic. -/
theorem not_winograd_of_format (node : convolution_node)
    (h : node.input.get_output_layout.format = format.b_fs_yx_fsv4 ∨
      node.input.get_output_layout.format = format.byxf_af32 ∨
      node.input.get_output_layout.format = format.byx8_f4) :
    node.input.get_output_layout.format ∉ winograd_weights_formats ∧
      node.input.get_output_layout.format ≠ format.winograd_2x3_s1_data := by
  rcases h with h | h | h <;> rw [h] <;> exact ⟨by decide, by decide⟩

/-! ## Lemmas on the constructor -/

/-- One turn of the loop: the body for the first group, then the loop over the rest. -/
theorem forM_cons_eq (a : Nat) (as : List Nat) (f : Nat → Except validation_error Unit) :
    List.forM (a :: as) f = (f a >>= fun _ => List.forM as f) := rfl

/-- A loop over a list of groups passes exactly when the body passes for each group. -/
theorem forM_ok_iff (l : List Nat) (f : Nat → Except validation_error Unit) :
    List.forM l f = .ok () ↔ ∀ j ∈ l, f j = .ok () := by
  induction l with
  | nil => simp [List.forM, pure, Except.pure]
  | cons a as ih =>
    rw [forM_cons_eq, check_bind_ok_iff, ih]
    simp only [List.mem_cons, forall_eq_or_imp]

/-- A loop fails with the error of the first group whose body fails. -/
theorem forM_error_of_first (l1 l2 : List Nat) (j : Nat)
    (f : Nat → Except validation_error Unit) (e : validation_error)
    (h1 : ∀ i ∈ l1, f i = .ok ()) (hj : f j = .error e) :
    List.forM (l1 ++ j :: l2) f = .error e := by
  induction l1 with
  | nil =>
    rw [List.nil_append, forM_cons_eq]
    exact check_bind_of_error _ _ e hj
  | cons a as ih =>
    rw [List.cons_append, forM_cons_eq,
      check_bind_of_ok _ _ (h1 a (List.mem_cons_self a as))]
    exact ih (fun i hi => h1 i (List.mem_cons_of_mem a hi))

/-- The groups `0 .. n-1` are the groups below `j`, then `j`, then the rest. -/
theorem range_split (n j : Nat) (h : j < n) :
    ∃ l2, List.range n = List.range j ++ j :: l2 := by
  induction n with
  | zero => omega
  | succ n ih =>
    by_cases hj : j = n
    · subst hj
      exact ⟨[], List.range_succ j⟩
    · obtain ⟨l2, hl2⟩ := ih (by omega)
      refine ⟨l2 ++ [n], ?_⟩
      rw [List.range_succ, hl2, List.append_assoc, List.cons_append]

/-- The constructor passes exactly when the two checks of the axis counts pass and the
body of the loop passes for every group below `split`. -/
theorem typed_primitive_inst_ok_iff (dims : tensor_dims) (node : convolution_node) :
    typed_primitive_inst dims node = .ok () ↔
      (dims.raw_size node.input.get_output_layout.size : Int) =
        dims.raw_size node.get_output_layout.size ∧
      (dims.raw_size node.get_primitive.stride : Int) =
        dims.raw_size node.get_output_layout.size ∧
      ∀ j : Nat, (j : Int) < node.get_split →
        typed_primitive_inst.verify_group dims node j = .ok () := by
  simp only [typed_primitive_inst, check_bind_ok_iff, CLDNN_ERROR_NOT_EQUAL_ok_iff,
    forM_ok_iff, List.mem_range]
  constructor
  · rintro ⟨h1, h2, h3⟩
    exact ⟨h1, h2, fun j hj => h3 j (by omega)⟩
  · rintro ⟨h1, h2, h3⟩
    exact ⟨h1, h2, fun j hj => h3 j (by omega)⟩

/-- When the two checks of the axis counts pass, the body passes for the groups below
`j` and fails for group `j`, the constructor fails with the error of group `j`. -/
theorem typed_primitive_inst_error_of_group (dims : tensor_dims) (node : convolution_node)
    (j : Nat) (e : validation_error) (hj : (j : Int) < node.get_split)
    (h1 : (dims.raw_size node.input.get_output_layout.size : Int) =
      dims.raw_size node.get_output_layout.size)
    (h2 : (dims.raw_size node.get_primitive.stride : Int) =
      dims.raw_size node.get_output_layout.size)
    (hlt : ∀ i : Nat, i < j → typed_primitive_inst.verify_group dims node i = .ok ())
    (he : typed_primitive_inst.verify_group dims node j = .error e) :
    typed_primitive_inst dims node = .error e := by
  obtain ⟨l2, hl2⟩ := range_split node.get_split.toNat j (by omega)
  simp only [typed_primitive_inst]
  rw [check_bind_of_ok _ _ ((CLDNN_ERROR_NOT_EQUAL_ok_iff _ _ _ _ _ _).mpr h1),
    check_bind_of_ok _ _ ((CLDNN_ERROR_NOT_EQUAL_ok_iff _ _ _ _ _ _).mpr h2), hl2]
  exact forM_error_of_first _ _ j _ e (fun i hi => hlt i (List.mem_range.mp hi)) he

/-- The checks of the bias of a group pass exactly when the bias has batch 1, the
feature length `output_size.feature[0] / split` and the spatial extents 1. -/
theorem verify_bias_ok_iff (node : convolution_node) (j : Nat) :
    typed_primitive_inst.verify_bias node j = .ok () ↔
      (node.bias j).get_output_layout.size.batch0 = 1 ∧
      (node.bias j).get_output_layout.size.feature0 =
        Int.tdiv node.get_output_layout.size.feature0 node.get_split ∧
      (node.bias j).get_output_layout.size.spatial2 = 1 ∧
      (node.bias j).get_output_layout.size.spatial1 = 1 ∧
      (node.bias j).get_output_layout.size.spatial0 = 1 := by
  simp only [typed_primitive_inst.verify_bias, check_bind_ok_iff,
    CLDNN_ERROR_NOT_EQUAL_ok_iff]

/-- The body of the loop passes for a group only if the checks of its bias pass, when
there is a bias, and the weights do not expect more input features than
`(input features - feature offset) / split`. -/
theorem verify_group_ok (dims : tensor_dims) (node : convolution_node) (j : Nat)
    (h : typed_primitive_inst.verify_group dims node j = .ok ()) :
    (node.bias_term = true → typed_primitive_inst.verify_bias node j = .ok ()) ∧
      (node.weights j).get_output_layout.size.feature0 ≤
        Int.tdiv (node.input.get_output_layout.size.feature0 -
          node.get_primitive.input_offset.feature0) node.get_split := by
  simp only [typed_primitive_inst.verify_group, check_bind_ok_iff,
    CLDNN_ERROR_NOT_EQUAL_ok_iff, CLDNN_ERROR_LESS_THAN_ok_iff] at h
  obtain ⟨hbias, _, _, _, _, _, hw⟩ := h
  refine ⟨?_, hw⟩
  intro hb
  rw [hb] at hbias
  exact hbias

/-! ## Lemmas on two nodes that share input, weights, descriptor and fusion -/

/-- The branch of the user-defined output size returns a layout exactly when the three
spatial extents are positive, and the layout is the one of lines 243-252. -/
theorem user_defined_layout_ok_iff (node : convolution_node) (t : data_types) (l : layout) :
    calc_output_layout.user_defined_layout node t = .ok l ↔
      0 < node.get_primitive.output_size.spatial0 ∧
      0 < node.get_primitive.output_size.spatial1 ∧
      0 < node.get_primitive.output_size.spatial2 ∧
      l = layout.of3 t
        (if t = data_types.bin then format.b_fs_yx_32fp
          else node.input.get_output_layout.format)
        (tensor.of5 node.input.get_output_layout.size.batch0
          node.get_primitive.output_size.feature0 node.get_primitive.output_size.spatial0
          node.get_primitive.output_size.spatial1 node.get_primitive.output_size.spatial2) := by
  constructor
  · intro h
    by_cases hx : 0 < node.get_primitive.output_size.spatial0
    · by_cases hy : 0 < node.get_primitive.output_size.spatial1
      · by_cases hz : 0 < node.get_primitive.output_size.spatial2
        · rw [user_defined_layout_of_pos node t hx hy hz] at h
          exact ⟨hx, hy, hz, (Except.ok.inj h).symm⟩
        · rw [user_defined_layout_of_nonpos node t (Or.inr (Or.inr (by omega)))] at h
          exact absurd h (by simp)
      · rw [user_defined_layout_of_nonpos node t (Or.inr (Or.inl (by omega)))] at h
        exact absurd h (by simp)
    · rw [user_defined_layout_of_nonpos node t (Or.inl (by omega))] at h
      exact absurd h (by simp)
  · rintro ⟨hx, hy, hz, rfl⟩
    exact user_defined_layout_of_pos node t hx hy hz

/-- Two nodes with the same input layout, weights layout, descriptor and fusion
information: every layout that `calc_output_layout` returns for the first has a
counterpart, of the same data type and size, that it returns for the second. -/
theorem calc_output_layout_congr (swor : sliding_window_range) (n1 n2 : convolution_node)
    (hin : n1.input.get_output_layout = n2.input.get_output_layout)
    (hw : (n1.weights 0).get_output_layout = (n2.weights 0).get_output_layout)
    (hd : n1.get_primitive = n2.get_primitive)
    (hfp : n1.has_fused_primitives = n2.has_fused_primitives)
    (hfl : n1.get_fused_output_layout = n2.get_fused_output_layout)
    (l1 : layout) (h1 : calc_output_layout swor n1 = .ok l1) :
    ∃ l2, calc_output_layout swor n2 = .ok l2 ∧ l2.data_type = l1.data_type ∧
      l2.size = l1.size := by
  obtain ⟨hp, hf⟩ := verified_of_calc_output_layout_ok swor n1 l1 h1
  have hp2 : calc_output_layout.verify_parameters n2 = .ok () := by
    rw [verify_parameters_ok_iff] at hp ⊢
    rw [← hin, ← hd]
    exact hp
  have hf2 : calc_output_layout.verify_input_format n2 = .ok () := by
    rw [verify_input_format_ok_iff] at hf ⊢
    rw [← hin]
    exact hf
  have ht : calc_output_layout.output_type n2 = calc_output_layout.output_type n1 := by
    simp only [calc_output_layout.output_type, hin, hfp, hfl]
  rw [calc_output_layout_of_verified swor n1 hp hf] at h1
  rw [calc_output_layout_of_verified swor n2 hp2 hf2, ← hin, ← hd, ht]
  by_cases hwin : n1.input.get_output_layout.format = format.winograd_2x3_s1_data
  · rw [if_pos hwin] at h1 ⊢
    refine ⟨l1, ?_, rfl, rfl⟩
    rw [winograd_layout_ok_iff] at h1 ⊢
    rw [← hin, ← hw, ← hd]
    exact h1
  · rw [if_neg hwin] at h1 ⊢
    by_cases hs : n1.get_primitive.with_output_size = true
    · rw [if_pos hs] at h1 ⊢
      refine ⟨l1, ?_, rfl, rfl⟩
      rw [user_defined_layout_ok_iff] at h1 ⊢
      rw [← hin, ← hd]
      exact h1
    · rw [if_neg hs] at h1 ⊢
      rw [default_layout_ok_iff] at h1
      obtain ⟨r, hr, rfl⟩ := h1
      refine ⟨_, (default_layout_ok_iff swor n2 _ _).mpr ⟨r, ?_, rfl⟩, ?_, ?_⟩
      · rw [← hin, ← hw, ← hd]
        exact hr
      · rw [(select_layout_type_size n2 _ _).1, (select_layout_type_size n1 _ _).1]
      · rw [(select_layout_type_size n2 _ _).2, (select_layout_type_size n1 _ _).2,
          ← hin, ← hw, ← hd]

/-- The body of the loop passes for a group exactly when the checks of its bias pass
(if there is a bias), the axis counts of weights, output, input offset and input
agree, the fill value of the output padding is 0, the output has one feature value
and one batch value, and the weights do not expect more input features than
`(input features - feature offset) / split`. -/
theorem verify_group_ok_iff (dims : tensor_dims) (node : convolution_node) (j : Nat) :
    typed_primitive_inst.verify_group dims node j = .ok () ↔
      (node.bias_term = true →
        (node.bias j).get_output_layout.size.batch0 = 1 ∧
        (node.bias j).get_output_layout.size.feature0 =
          Int.tdiv node.get_output_layout.size.feature0 node.get_split ∧
        (node.bias j).get_output_layout.size.spatial2 = 1 ∧
        (node.bias j).get_output_layout.size.spatial1 = 1 ∧
        (node.bias j).get_output_layout.size.spatial0 = 1) ∧
      (dims.raw_size (node.weights j).get_output_layout.size : Int) =
        dims.raw_size node.get_output_layout.size ∧
      node.get_output_layout.data_padding.filling_value = 0 ∧
      (dims.raw_size node.get_primitive.input_offset : Int) =
        dims.raw_size node.input.get_output_layout.size ∧
      (dims.feature_size node.get_output_layout.size : Int) = 1 ∧
      (dims.batch_size node.get_output_layout.size : Int) = 1 ∧
      (node.weights j).get_output_layout.size.feature0 ≤
        Int.tdiv (node.input.get_output_layout.size.feature0 -
          node.get_primitive.input_offset.feature0) node.get_split := by
  have hbias : (if node.bias_term = true then typed_primitive_inst.verify_bias node j
      else pure ()) = Except.ok () ↔
      (node.bias_term = true → typed_primitive_inst.verify_bias node j = .ok ()) := by
    cases node.bias_term with
    | false => simp [pure, Except.pure]
    | true => simp
  simp only [typed_primitive_inst.verify_group, check_bind_ok_iff, hbias,
    CLDNN_ERROR_NOT_EQUAL_ok_iff, CLDNN_ERROR_LESS_THAN_ok_iff, verify_bias_ok_iff]

/-! ## The claims -/

/-- C1: on the default path (the parameter verification passes, the input format is
no Winograd format, the descriptor carries no output size) `calc_output_layout`, run
with the extent calculator as the spec words it, returns a layout, and each spatial
extent of it is `floor((inputExtent + 2*offset - ((kernelExtent-1)*dilation+1)) / stride) + 1`
of the input extent, the kernel extent of the weights layout, the input offset, the
stride and the dilation of that axis. -/
theorem default_path_spatial_extents (node : convolution_node)
    (hp : calc_output_layout.verify_parameters node = .ok ())
    (hf : node.input.get_output_layout.format ∉ winograd_weights_formats)
    (hw : node.input.get_output_layout.format ≠ format.winograd_2x3_s1_data)
    (hs : node.get_primitive.with_output_size = false) :
    ∃ l, calc_output_layout calc_sliding_window_output_range node = .ok l ∧
      l.size.spatial0 =
        Int.fdiv (node.input.get_output_layout.size.spatial0 +
          2 * node.get_primitive.input_offset.spatial0 -
          (((node.weights 0).get_output_layout.size.spatial0 - 1) *
            node.get_primitive.dilation.spatial0 + 1)) node.get_primitive.stride.spatial0 + 1 ∧
      l.size.spatial1 =
        Int.fdiv (node.input.get_output_layout.size.spatial1 +
          2 * node.get_primitive.input_offset.spatial1 -
          (((node.weights 0).get_output_layout.size.spatial1 - 1) *
            node.get_primitive.dilation.spatial1 + 1)) node.get_primitive.stride.spatial1 + 1 ∧
      l.size.spatial2 =
        Int.fdiv (node.input.get_output_layout.size.spatial2 +
          2 * node.get_primitive.input_offset.spatial2 -
          (((node.weights 0).get_output_layout.size.spatial2 - 1) *
            node.get_primitive.dilation.spatial2 + 1)) node.get_primitive.stride.spatial2 + 1 := by
  refine ⟨_, calc_output_layout_default calc_sliding_window_output_range node _ hp hf hw hs rfl,
    ?_, ?_, ?_⟩
  all_goals
    rw [(select_layout_type_size node _ _).2]
    rfl

/-- Witness of C1: the first test of the spec gives the spatial extents (109, 109),
64 features and the type `f32`. -/
theorem default_path_spatial_extents_witness :
    calc_output_layout.verify_parameters example_conv7x7 = .ok () ∧
    calc_output_layout calc_sliding_window_output_range example_conv7x7 =
      .ok ⟨data_types.f32, format.bfyx, ⟨1, 64, 109, 109, 1, 1⟩, padding.none⟩ ∧
    ∃ l, calc_output_layout calc_sliding_window_output_range example_conv7x7 = .ok l ∧
      l.size.spatial0 = Int.fdiv (224 + 2 * 0 - ((7 - 1) * 1 + 1)) 2 + 1 ∧
      l.size.spatial1 = Int.fdiv (224 + 2 * 0 - ((7 - 1) * 1 + 1)) 2 + 1 ∧
      l.size.spatial2 = Int.fdiv (1 + 2 * 0 - ((1 - 1) * 1 + 1)) 1 + 1 :=
  ⟨rfl, rfl,
    default_path_spatial_extents example_conv7x7 rfl (by decide) (by decide) rfl⟩

/-- C2: every layout that `calc_output_layout` returns, on any of its return paths,
has as data type the fused output type if the node has fused primitives, otherwise
`f32` if the input type is `i8` or `u8`, otherwise the input type; an `i8` input
without fused primitives never gives an `i8` output. -/
theorem output_data_type_rule (swor : sliding_window_range) (node : convolution_node)
    (l : layout) (h : calc_output_layout swor node = .ok l) :
    l.data_type =
      (if node.has_fused_primitives = true then node.get_fused_output_layout.data_type
       else if node.input.get_output_layout.data_type = data_types.i8 ∨
          node.input.get_output_layout.data_type = data_types.u8 then data_types.f32
       else node.input.get_output_layout.data_type) ∧
    (node.input.get_output_layout.data_type = data_types.i8 →
      node.has_fused_primitives = false → l.data_type ≠ data_types.i8) := by
  have ht := data_type_of_calc_output_layout_ok swor node l h
  rw [output_type_eq] at ht
  refine ⟨ht, ?_⟩
  intro hi hn
  rw [ht, hn, hi]
  simp only [Bool.false_eq_true, if_false, true_or, if_true]
  decide

/-- Witness of C2: the `i8` input without fused primitives gives `f32`. -/
theorem output_data_type_rule_witness :
    calc_output_layout calc_sliding_window_output_range example_conv7x7_i8 =
      .ok ⟨data_types.f32, format.bfyx, ⟨1, 64, 109, 109, 1, 1⟩, padding.none⟩ ∧
    (data_types.f32 =
      (if example_conv7x7_i8.has_fused_primitives = true
        then example_conv7x7_i8.get_fused_output_layout.data_type
       else if example_conv7x7_i8.input.get_output_layout.data_type = data_types.i8 ∨
          example_conv7x7_i8.input.get_output_layout.data_type = data_types.u8
        then data_types.f32
       else example_conv7x7_i8.input.get_output_layout.data_type) ∧
    (example_conv7x7_i8.input.get_output_layout.data_type = data_types.i8 →
      example_conv7x7_i8.has_fused_primitives = false → data_types.f32 ≠ data_types.i8)) :=
  ⟨rfl, output_data_type_rule calc_sliding_window_output_range example_conv7x7_i8
    ⟨data_types.f32, format.bfyx, ⟨1, 64, 109, 109, 1, 1⟩, padding.none⟩ rfl⟩

/-- C3: for an input in `winograd_2x3_s1_data`, every layout that `calc_output_layout`
returns has the format of the input, the batch of the input, as feature the weights
batch times the weights group, the width (spatial X) of the input and the height
(spatial Y) of the input minus 2, whether or not the descriptor carries an output
size. -/
theorem winograd_output_layout (swor : sliding_window_range) (node : convolution_node)
    (l : layout)
    (hw : node.input.get_output_layout.format = format.winograd_2x3_s1_data)
    (h : calc_output_layout swor node = .ok l) :
    l.format = node.input.get_output_layout.format ∧
    l.size.batch0 = node.input.get_output_layout.size.batch0 ∧
    l.size.feature0 = (node.weights 0).get_output_layout.size.batch0 *
      (node.weights 0).get_output_layout.size.group0 ∧
    l.size.spatial0 = node.input.get_output_layout.size.spatial0 ∧
    l.size.spatial1 = node.input.get_output_layout.size.spatial1 - 2 := by
  obtain ⟨hp, hf⟩ := verified_of_calc_output_layout_ok swor node l h
  rw [calc_output_layout_of_verified swor node hp hf, if_pos hw, winograd_layout_ok_iff] at h
  obtain ⟨_, _, _, _, _, _, _, _, _, rfl⟩ := h
  refine ⟨rfl, rfl, rfl, rfl, ?_⟩
  show node.input.get_output_layout.size.spatial1 - 3 + 1 = _
  omega

/-- Witness of C3: an 8 x 10 Winograd input with 64 filters and a descriptor that
carries an output size (7 x 7, 5 features) gives 8 x 8 and 64 features. -/
theorem winograd_output_layout_witness :
    example_winograd.get_primitive.with_output_size = true ∧
    calc_output_layout calc_sliding_window_output_range example_winograd =
      .ok ⟨data_types.f32, format.winograd_2x3_s1_data, ⟨2, 64, 8, 8, 1, 1⟩, padding.none⟩ ∧
    (format.winograd_2x3_s1_data = example_winograd.input.get_output_layout.format ∧
     (2 : Int) = example_winograd.input.get_output_layout.size.batch0 ∧
     (64 : Int) = (example_winograd.weights 0).get_output_layout.size.batch0 *
       (example_winograd.weights 0).get_output_layout.size.group0 ∧
     (8 : Int) = example_winograd.input.get_output_layout.size.spatial0 ∧
     (8 : Int) = example_winograd.input.get_output_layout.size.spatial1 - 2) :=
  ⟨rfl, rfl, winograd_output_layout calc_sliding_window_output_range example_winograd
    ⟨data_types.f32, format.winograd_2x3_s1_data, ⟨2, 64, 8, 8, 1, 1⟩, padding.none⟩ rfl rfl⟩

/-- C4: for an input in `winograd_2x3_s1_data` whose parameters pass the general
verification, `calc_output_layout` returns a layout if and only if split is 1, stride
X and Y are 1, dilation X and Y are 1, the input feature count and the weights batch
are divisible by 32, and the input width and height are at least 3; an input feature
count that 32 does not divide makes it fail. -/
theorem winograd_succeeds_iff (swor : sliding_window_range) (node : convolution_node)
    (hw : node.input.get_output_layout.format = format.winograd_2x3_s1_data)
    (hp : calc_output_layout.verify_parameters node = .ok ()) :
    ((∃ l, calc_output_layout swor node = .ok l) ↔
      node.get_primitive.weights.length = 1 ∧
      node.get_primitive.stride.spatial0 = 1 ∧ node.get_primitive.stride.spatial1 = 1 ∧
      node.get_primitive.dilation.spatial0 = 1 ∧ node.get_primitive.dilation.spatial1 = 1 ∧
      (32 : Int) ∣ node.input.get_output_layout.size.feature0 ∧
      (32 : Int) ∣ (node.weights 0).get_output_layout.size.batch0 ∧
      3 ≤ node.input.get_output_layout.size.spatial0 ∧
      3 ≤ node.input.get_output_layout.size.spatial1) ∧
    (¬ (32 : Int) ∣ node.input.get_output_layout.size.feature0 →
      ∃ e, calc_output_layout swor node = .error e) := by
  have hf : calc_output_layout.verify_input_format node = .ok () := by
    rw [verify_input_format_ok_iff, hw]
    decide
  have hiff : (∃ l, calc_output_layout swor node = .ok l) ↔
      node.get_primitive.weights.length = 1 ∧
      node.get_primitive.stride.spatial0 = 1 ∧ node.get_primitive.stride.spatial1 = 1 ∧
      node.get_primitive.dilation.spatial0 = 1 ∧ node.get_primitive.dilation.spatial1 = 1 ∧
      (32 : Int) ∣ node.input.get_output_layout.size.feature0 ∧
      (32 : Int) ∣ (node.weights 0).get_output_layout.size.batch0 ∧
      3 ≤ node.input.get_output_layout.size.spatial0 ∧
      3 ≤ node.input.get_output_layout.size.spatial1 := by
    rw [calc_output_layout_of_verified swor node hp hf, if_pos hw]
    simp only [winograd_layout_ok_iff, Int.dvd_iff_tmod_eq_zero]
    constructor
    · rintro ⟨l, h1, h2, h3, h4, h5, h6, h7, h8, h9, _⟩
      exact ⟨by omega, h2, h3, h4, h5, h6, h7, h8, h9⟩
    · rintro ⟨h1, h2, h3, h4, h5, h6, h7, h8, h9⟩
      exact ⟨_, by omega, h2, h3, h4, h5, h6, h7, h8, h9, rfl⟩
  refine ⟨hiff, ?_⟩
  intro hnd
  rcases ok_or_error (calc_output_layout swor node) with hok | herr
  · exact absurd (hiff.mp hok).2.2.2.2.2.1 hnd
  · exact herr

/-- Witness of C4: a Winograd input with 48 features passes the general verification
and fails. -/
theorem winograd_succeeds_iff_witness :
    example_winograd_48.input.get_output_layout.format = format.winograd_2x3_s1_data ∧
    calc_output_layout.verify_parameters example_winograd_48 = .ok () ∧
    ((∃ l, calc_output_layout calc_sliding_window_output_range example_winograd_48 = .ok l) ↔
      example_winograd_48.get_primitive.weights.length = 1 ∧
      example_winograd_48.get_primitive.stride.spatial0 = 1 ∧
      example_winograd_48.get_primitive.stride.spatial1 = 1 ∧
      example_winograd_48.get_primitive.dilation.spatial0 = 1 ∧
      example_winograd_48.get_primitive.dilation.spatial1 = 1 ∧
      (32 : Int) ∣ example_winograd_48.input.get_output_layout.size.feature0 ∧
      (32 : Int) ∣ (example_winograd_48.weights 0).get_output_layout.size.batch0 ∧
      3 ≤ example_winograd_48.input.get_output_layout.size.spatial0 ∧
      3 ≤ example_winograd_48.input.get_output_layout.size.spatial1) ∧
    (¬ (32 : Int) ∣ example_winograd_48.input.get_output_layout.size.feature0 →
      ∃ e, calc_output_layout calc_sliding_window_output_range example_winograd_48 =
        .error e) :=
  ⟨rfl, rfl, winograd_succeeds_iff calc_sliding_window_output_range example_winograd_48 rfl rfl⟩

/-- C5: when the parameter verification passes, the input format is no Winograd
format and the descriptor carries an output size whose spatial X, Y and Z are
positive, `calc_output_layout` returns the layout of shape (input batch, given
feature, given X, given Y, given Z), in the format `b_fs_yx_32fp` if the output type
is `bin` and in the format of the input otherwise; the weights, the stride, the
dilation, the helper and the neighbours do not enter the result. -/
theorem user_defined_output_size (swor : sliding_window_range) (node : convolution_node)
    (hp : calc_output_layout.verify_parameters node = .ok ())
    (hf : node.input.get_output_layout.format ∉ winograd_weights_formats)
    (hw : node.input.get_output_layout.format ≠ format.winograd_2x3_s1_data)
    (hs : node.get_primitive.with_output_size = true)
    (hx : 0 < node.get_primitive.output_size.spatial0)
    (hy : 0 < node.get_primitive.output_size.spatial1)
    (hz : 0 < node.get_primitive.output_size.spatial2) :
    ∃ l, calc_output_layout swor node = .ok l ∧
      l.data_type = calc_output_layout.output_type node ∧
      l.size.batch0 = node.input.get_output_layout.size.batch0 ∧
      l.size.feature0 = node.get_primitive.output_size.feature0 ∧
      l.size.spatial0 = node.get_primitive.output_size.spatial0 ∧
      l.size.spatial1 = node.get_primitive.output_size.spatial1 ∧
      l.size.spatial2 = node.get_primitive.output_size.spatial2 ∧
      l.format =
        (if calc_output_layout.output_type node = data_types.bin then format.b_fs_yx_32fp
         else node.input.get_output_layout.format) := by
  have hl := user_defined_layout_of_pos node (calc_output_layout.output_type node) hx hy hz
  rw [← calc_output_layout_user_defined swor node hp hf hw hs] at hl
  exact ⟨_, hl, rfl, rfl, rfl, rfl, rfl, rfl, rfl⟩

/-- Witness of C5: the output size (16; 5, 6, 1) over a `byxf` input of batch 2. -/
theorem user_defined_output_size_witness :
    calc_output_layout.verify_parameters example_user_defined = .ok () ∧
    example_user_defined.get_primitive.with_output_size = true ∧
    calc_output_layout calc_sliding_window_output_range example_user_defined =
      .ok ⟨data_types.f16, format.byxf, ⟨2, 16, 5, 6, 1, 1⟩, padding.none⟩ ∧
    ∃ l, calc_output_layout calc_sliding_window_output_range example_user_defined = .ok l ∧
      l.data_type = calc_output_layout.output_type example_user_defined ∧
      l.size.batch0 = example_user_defined.input.get_output_layout.size.batch0 ∧
      l.size.feature0 = example_user_defined.get_primitive.output_size.feature0 ∧
      l.size.spatial0 = example_user_defined.get_primitive.output_size.spatial0 ∧
      l.size.spatial1 = example_user_defined.get_primitive.output_size.spatial1 ∧
      l.size.spatial2 = example_user_defined.get_primitive.output_size.spatial2 ∧
      l.format =
        (if calc_output_layout.output_type example_user_defined = data_types.bin
          then format.b_fs_yx_32fp
         else example_user_defined.input.get_output_layout.format) :=
  ⟨rfl, rfl, rfl,
    user_defined_output_size calc_sliding_window_output_range example_user_defined rfl
      (by decide) (by decide) rfl (by decide) (by decide) (by decide)⟩

/-- C6: when the parameter verification passes, the input format is no Winograd
format and the descriptor carries an output size with a spatial extent X, Y or Z that
is not positive, `calc_output_layout` fails, and the parameter name of the error is
the one of the first such axis in the order X, Y, Z. -/
theorem user_defined_output_size_nonpositive (swor : sliding_window_range)
    (node : convolution_node)
    (hp : calc_output_layout.verify_parameters node = .ok ())
    (hf : node.input.get_output_layout.format ∉ winograd_weights_formats)
    (hw : node.input.get_output_layout.format ≠ format.winograd_2x3_s1_data)
    (hs : node.get_primitive.with_output_size = true)
    (h : node.get_primitive.output_size.spatial0 ≤ 0 ∨
      node.get_primitive.output_size.spatial1 ≤ 0 ∨
      node.get_primitive.output_size.spatial2 ≤ 0) :
    ∃ e, calc_output_layout swor node = .error e ∧
      e.number_name =
        (if node.get_primitive.output_size.spatial0 ≤ 0 then "User defined output spatial X"
         else if node.get_primitive.output_size.spatial1 ≤ 0 then
          "User defined output spatial Y"
         else "User defined output spatial Z") := by
  have he := user_defined_layout_of_nonpos node (calc_output_layout.output_type node) h
  rw [← calc_output_layout_user_defined swor node hp hf hw hs] at he
  refine ⟨_, he, ?_⟩
  split_ifs <;> rfl

/-- Witness of C6: the output size with Y = 0 is refused under the name of the Y
axis. -/
theorem user_defined_output_size_nonpositive_witness :
    calc_output_layout.verify_parameters example_user_defined_y0 = .ok () ∧
    example_user_defined_y0.get_primitive.with_output_size = true ∧
    ∃ e, calc_output_layout calc_sliding_window_output_range example_user_defined_y0 =
        .error e ∧
      e.number_name =
        (if example_user_defined_y0.get_primitive.output_size.spatial0 ≤ 0 then
          "User defined output spatial X"
         else if example_user_defined_y0.get_primitive.output_size.spatial1 ≤ 0 then
          "User defined output spatial Y"
         else "User defined output spatial Z") :=
  ⟨rfl, rfl,
    user_defined_output_size_nonpositive calc_sliding_window_output_range
      example_user_defined_y0 rfl (by decide) (by decide) rfl (Or.inr (Or.inl (by decide)))⟩

/-- C7: on the default path, when the helper returns an output range,
`calc_output_layout` returns a layout whose batch is the batch of the input and whose
feature count is the feature value of the descriptor's `output_size` if that value is
not zero, and otherwise the weights batch times the weights group. -/
theorem default_path_batch_feature (swor : sliding_window_range) (node : convolution_node)
    (r : tensor)
    (hp : calc_output_layout.verify_parameters node = .ok ())
    (hf : node.input.get_output_layout.format ∉ winograd_weights_formats)
    (hw : node.input.get_output_layout.format ≠ format.winograd_2x3_s1_data)
    (hs : node.get_primitive.with_output_size = false)
    (hr : swor node.input.get_output_layout.size (node.weights 0).get_output_layout.size
      node.get_primitive.input_offset node.get_primitive.stride node.get_primitive.dilation
      true 1 = .ok r) :
    ∃ l, calc_output_layout swor node = .ok l ∧
      l.size.batch0 = node.input.get_output_layout.size.batch0 ∧
      l.size.feature0 =
        (if node.get_primitive.output_size.feature0 ≠ 0
          then node.get_primitive.output_size.feature0
         else (node.weights 0).get_output_layout.size.batch0 *
          (node.weights 0).get_output_layout.size.group0) := by
  refine ⟨_, calc_output_layout_default swor node r hp hf hw hs hr, ?_, ?_⟩
  all_goals
    rw [(select_layout_type_size node _ _).2]
    rfl

/-- Witness of C7: 64 filters in one group and no feature value in the descriptor give
64 features and the batch 1 of the input. -/
theorem default_path_batch_feature_witness :
    calc_output_layout.verify_parameters example_conv7x7 = .ok () ∧
    example_conv7x7.get_primitive.output_size.feature0 = 0 ∧
    ∃ l, calc_output_layout calc_sliding_window_output_range example_conv7x7 = .ok l ∧
      l.size.batch0 = 1 ∧
      l.size.feature0 = (if (0 : Int) ≠ 0 then 0 else 64 * 1) :=
  ⟨rfl, rfl,
    default_path_batch_feature calc_sliding_window_output_range example_conv7x7
      ⟨0, 0, 109, 109, 1, 0⟩ rfl (by decide) (by decide) rfl rfl⟩

/-- C8: on the default path, when the output type is `bin` and the helper returns an
output range, `calc_output_layout` returns a layout in the format `b_fs_yx_32fp`,
whatever the format of the input, the users and the dependencies are. -/
theorem default_path_bin_format (swor : sliding_window_range) (node : convolution_node)
    (r : tensor)
    (hp : calc_output_layout.verify_parameters node = .ok ())
    (hf : node.input.get_output_layout.format ∉ winograd_weights_formats)
    (hw : node.input.get_output_layout.format ≠ format.winograd_2x3_s1_data)
    (hs : node.get_primitive.with_output_size = false)
    (hb : calc_output_layout.output_type node = data_types.bin)
    (hr : swor node.input.get_output_layout.size (node.weights 0).get_output_layout.size
      node.get_primitive.input_offset node.get_primitive.stride node.get_primitive.dilation
      true 1 = .ok r) :
    ∃ l, calc_output_layout swor node = .ok l ∧ l.format = format.b_fs_yx_32fp := by
  refine ⟨_, calc_output_layout_default swor node r hp hf hw hs hr, ?_⟩
  rw [hb, select_layout_of_bin]
  rfl

/-- Witness of C8: an input that matches the first-layer rule (`i8`, `byx8_f4`, batch
4, 3 features) with the fused output type `bin` is given `b_fs_yx_32fp`. -/
theorem default_path_bin_format_witness :
    calc_output_layout.verify_parameters example_bin = .ok () ∧
    calc_output_layout.output_type example_bin = data_types.bin ∧
    (example_bin.input.get_output_layout.data_type = data_types.i8 ∧
      example_bin.input.get_output_layout.format = format.byx8_f4 ∧
      Int.tmod example_bin.input.get_output_layout.size.batch0 4 = 0 ∧
      example_bin.input.get_output_layout.size.feature0 = 3) ∧
    ∃ l, calc_output_layout calc_sliding_window_output_range example_bin = .ok l ∧
      l.format = format.b_fs_yx_32fp :=
  ⟨rfl, rfl, ⟨rfl, rfl, rfl, rfl⟩,
    default_path_bin_format calc_sliding_window_output_range example_bin
      ⟨0, 0, 14, 14, 1, 0⟩ rfl (by decide) (by decide) rfl rfl rfl⟩

/-- C9: for an input whose format is one of the Winograd weights formats
(`winograd_2x3_s1_weights`, `winograd_2x3_s1_fused_weights`,
`winograd_6x3_s1_fused_weights`, `image_2d_weights_winograd_6x3_s1_fbxyb`,
`image_2d_weights_winograd_6x3_s1_xfbyb`) `calc_output_layout` fails and returns no
layout, whatever the descriptor, the weights, the helper and the neighbours are. -/
theorem weights_format_input_fails (swor : sliding_window_range) (node : convolution_node)
    (h : node.input.get_output_layout.format = format.winograd_2x3_s1_weights ∨
      node.input.get_output_layout.format = format.winograd_2x3_s1_fused_weights ∨
      node.input.get_output_layout.format = format.winograd_6x3_s1_fused_weights ∨
      node.input.get_output_layout.format = format.image_2d_weights_winograd_6x3_s1_fbxyb ∨
      node.input.get_output_layout.format = format.image_2d_weights_winograd_6x3_s1_xfbyb) :
    (∃ e, calc_output_layout swor node = .error e) ∧
      ∀ l, calc_output_layout swor node ≠ .ok l := by
  have hmem : node.input.get_output_layout.format ∈ winograd_weights_formats := by
    simp only [winograd_weights_formats, List.mem_cons, List.mem_singleton, List.not_mem_nil,
      or_false]
    exact h
  have hno : ∀ l, calc_output_layout swor node ≠ .ok l := by
    intro l hl
    have hv := (verified_of_calc_output_layout_ok swor node l hl).2
    rw [verify_input_format_ok_iff] at hv
    exact hv hmem
  refine ⟨?_, hno⟩
  rcases ok_or_error (calc_output_layout swor node) with ⟨l, hl⟩ | herr
  · exact absurd hl (hno l)
  · exact herr

/-- Witness of C9: an input tagged `winograd_2x3_s1_weights` is refused. -/
theorem weights_format_input_fails_witness :
    example_weights_format.input.get_output_layout.format = format.winograd_2x3_s1_weights ∧
    ((∃ e, calc_output_layout calc_sliding_window_output_range example_weights_format =
        .error e) ∧
      ∀ l, calc_output_layout calc_sliding_window_output_range example_weights_format ≠
        .ok l) :=
  ⟨rfl, weights_format_input_fails calc_sliding_window_output_range example_weights_format
    (Or.inl rfl)⟩

/-- C10, counterexample: with the input offset 1 on an input of width 2, twice the
offset equals the extent, `2 * inputOffset < inputExtent` is false on X, and
`calc_output_layout` returns a layout.  With the input offset `2^30` on an input of
width 8 the `int32_t` product `2 * 2^30` wraps around to `-2^31`, the check passes and
`calc_output_layout` returns a layout as well. -/
theorem offset_bound_strict_counterexample :
    (calc_output_layout calc_sliding_window_output_range example_offset_equal =
        .ok ⟨data_types.f32, format.bfyx, ⟨1, 1, 1, 1, 1, 1⟩, padding.none⟩ ∧
      ¬ (2 * example_offset_equal.get_primitive.input_offset.spatial0 <
        example_offset_equal.input.get_output_layout.size.spatial0)) ∧
    (calc_output_layout calc_sliding_window_output_range example_offset_overflow =
        .ok ⟨data_types.f32, format.bfyx, ⟨1, 1, 1, 1, 1, 1⟩, padding.none⟩ ∧
      ¬ (2 * example_offset_overflow.get_primitive.input_offset.spatial0 <
        example_offset_overflow.input.get_output_layout.size.spatial0)) :=
  ⟨⟨rfl, by decide⟩, ⟨rfl, by decide⟩⟩

/-- C10, amended: for input offsets on X and Y between `-2^30` and `2^30 - 1`, where
`2 * inputOffset` does not overflow `int32_t`: on every node for which
`calc_output_layout` returns a layout, `2 * inputOffset ≤ inputExtent` holds on the
spatial axes X and Y; and `calc_output_layout` fails whenever `2 * inputOffset` is
greater than the input extent on X or on Y. -/
theorem offset_bound (swor : sliding_window_range) (node : convolution_node)
    (hx : -1073741824 ≤ node.get_primitive.input_offset.spatial0 ∧
      node.get_primitive.input_offset.spatial0 < 1073741824)
    (hy : -1073741824 ≤ node.get_primitive.input_offset.spatial1 ∧
      node.get_primitive.input_offset.spatial1 < 1073741824) :
    (∀ l, calc_output_layout swor node = .ok l →
      2 * node.get_primitive.input_offset.spatial0 ≤
        node.input.get_output_layout.size.spatial0 ∧
      2 * node.get_primitive.input_offset.spatial1 ≤
        node.input.get_output_layout.size.spatial1) ∧
    (2 * node.get_primitive.input_offset.spatial0 >
        node.input.get_output_layout.size.spatial0 ∨
      2 * node.get_primitive.input_offset.spatial1 >
        node.input.get_output_layout.size.spatial1 →
      ∃ e, calc_output_layout swor node = .error e) := by
  have hok : ∀ l, calc_output_layout swor node = .ok l →
      2 * node.get_primitive.input_offset.spatial0 ≤
        node.input.get_output_layout.size.spatial0 ∧
      2 * node.get_primitive.input_offset.spatial1 ≤
        node.input.get_output_layout.size.spatial1 := by
    intro l hl
    have hv := (verified_of_calc_output_layout_ok swor node l hl).1
    rw [verify_parameters_ok_iff, int32_mul_two_of_range _ hx.1 hx.2,
      int32_mul_two_of_range _ hy.1 hy.2] at hv
    exact ⟨hv.2.2.2.2.1, hv.2.2.2.2.2.1⟩
  refine ⟨hok, ?_⟩
  intro hgt
  rcases ok_or_error (calc_output_layout swor node) with ⟨l, hl⟩ | herr
  · have := hok l hl
    omega
  · exact herr

/-- Witness of C10, amended: the node with twice the offset equal to the extent is
accepted, and the bound holds with equality on X. -/
theorem offset_bound_witness :
    (-1073741824 ≤ example_offset_equal.get_primitive.input_offset.spatial0 ∧
      example_offset_equal.get_primitive.input_offset.spatial0 < 1073741824) ∧
    (2 * example_offset_equal.get_primitive.input_offset.spatial0 ≤
        example_offset_equal.input.get_output_layout.size.spatial0 ∧
      2 * example_offset_equal.get_primitive.input_offset.spatial1 ≤
        example_offset_equal.input.get_output_layout.size.spatial1) :=
  ⟨by decide,
    (offset_bound calc_sliding_window_output_range example_offset_equal (by decide)
      (by decide)).1
      ⟨data_types.f32, format.bfyx, ⟨1, 1, 1, 1, 1, 1⟩, padding.none⟩ rfl⟩

/-- C11, the code at two inputs: for a `bfzyx` input the check named "Input offset
spatial Z" compares twice the Z offset with `spatial[1]`, the Y extent of the input.
With extent 8 x 8 x 2 and Z offset 2, twice the offset exceeds the Z extent and
`calc_output_layout` returns a layout; with extent 8 x 2 x 8 and Z offset 2, twice
the offset is below the Z extent and the Z offset check fails. -/
theorem offset_z_compared_with_y_extent :
    (example_3d_offset_above_z.input.get_output_layout.format = format.bfzyx ∧
      2 * example_3d_offset_above_z.get_primitive.input_offset.spatial2 >
        example_3d_offset_above_z.input.get_output_layout.size.spatial2 ∧
      calc_output_layout calc_sliding_window_output_range example_3d_offset_above_z =
        .ok ⟨data_types.f32, format.bfzyx, ⟨1, 4, 8, 8, 1, 1⟩, padding.none⟩) ∧
    (example_3d_offset_below_z.input.get_output_layout.format = format.bfzyx ∧
      2 * example_3d_offset_below_z.get_primitive.input_offset.spatial2 <
        example_3d_offset_below_z.input.get_output_layout.size.spatial2 ∧
      calc_output_layout calc_sliding_window_output_range example_3d_offset_below_z =
        .error ⟨"conv", error_condition.greater_than, "Input offset spatial Z", 4,
          "input layout spatial Z", 2, "There is no input data to process"⟩) :=
  ⟨⟨rfl, by decide, rfl⟩, ⟨rfl, by decide, rfl⟩⟩

/-- C12: on every node for which `calc_output_layout` returns a layout, stride and
dilation are at least 1 on the spatial axes X and Y and, for a `bfzyx` input, on Z;
and a stride or dilation that is 0 or negative on X or Y, or on Z for a `bfzyx`
input, makes `calc_output_layout` fail. -/
theorem stride_dilation_positive (swor : sliding_window_range) (node : convolution_node) :
    (∀ l, calc_output_layout swor node = .ok l →
      1 ≤ node.get_primitive.stride.spatial0 ∧ 1 ≤ node.get_primitive.stride.spatial1 ∧
      1 ≤ node.get_primitive.dilation.spatial0 ∧ 1 ≤ node.get_primitive.dilation.spatial1 ∧
      (node.input.get_output_layout.format = format.bfzyx →
        1 ≤ node.get_primitive.stride.spatial2 ∧ 1 ≤ node.get_primitive.dilation.spatial2)) ∧
    (node.get_primitive.stride.spatial0 ≤ 0 ∨ node.get_primitive.stride.spatial1 ≤ 0 ∨
      node.get_primitive.dilation.spatial0 ≤ 0 ∨ node.get_primitive.dilation.spatial1 ≤ 0 ∨
      (node.input.get_output_layout.format = format.bfzyx ∧
        (node.get_primitive.stride.spatial2 ≤ 0 ∨ node.get_primitive.dilation.spatial2 ≤ 0)) →
      ∃ e, calc_output_layout swor node = .error e) := by
  have hok : ∀ l, calc_output_layout swor node = .ok l →
      1 ≤ node.get_primitive.stride.spatial0 ∧ 1 ≤ node.get_primitive.stride.spatial1 ∧
      1 ≤ node.get_primitive.dilation.spatial0 ∧ 1 ≤ node.get_primitive.dilation.spatial1 ∧
      (node.input.get_output_layout.format = format.bfzyx →
        1 ≤ node.get_primitive.stride.spatial2 ∧
          1 ≤ node.get_primitive.dilation.spatial2) := by
    intro l hl
    have hv := (verified_of_calc_output_layout_ok swor node l hl).1
    rw [verify_parameters_ok_iff] at hv
    obtain ⟨h1, h2, h3, h4, _, _, _, _, hz⟩ := hv
    refine ⟨by omega, by omega, by omega, by omega, ?_⟩
    intro hfmt
    obtain ⟨h5, h6, _⟩ := hz hfmt
    exact ⟨by omega, by omega⟩
  refine ⟨hok, ?_⟩
  intro hbad
  apply error_of_not_ok
  intro l hl
  obtain ⟨h1, h2, h3, h4, hz⟩ := hok l hl
  rcases hbad with h | h | h | h | ⟨hfmt, h⟩
  · omega
  · omega
  · omega
  · omega
  · obtain ⟨h5, h6⟩ := hz hfmt
    omega

/-- Witness of C12: the 7 x 7 convolution is accepted with stride 2 and dilation 1; a
`bfzyx` input with dilation 0 on Z is refused. -/
theorem stride_dilation_positive_witness :
    ((1 : Int) ≤ example_conv7x7.get_primitive.stride.spatial0 ∧
      1 ≤ example_conv7x7.get_primitive.stride.spatial1 ∧
      1 ≤ example_conv7x7.get_primitive.dilation.spatial0 ∧
      1 ≤ example_conv7x7.get_primitive.dilation.spatial1 ∧
      (example_conv7x7.input.get_output_layout.format = format.bfzyx →
        1 ≤ example_conv7x7.get_primitive.stride.spatial2 ∧
          1 ≤ example_conv7x7.get_primitive.dilation.spatial2)) ∧
    (example_3d_dilation_z.input.get_output_layout.format = format.bfzyx ∧
      example_3d_dilation_z.get_primitive.dilation.spatial2 ≤ 0 ∧
      ∃ e, calc_output_layout calc_sliding_window_output_range example_3d_dilation_z =
        .error e) :=
  ⟨(stride_dilation_positive calc_sliding_window_output_range example_conv7x7).1
      ⟨data_types.f32, format.bfyx, ⟨1, 64, 109, 109, 1, 1⟩, padding.none⟩ rfl,
    rfl, by decide,
    (stride_dilation_positive calc_sliding_window_output_range example_3d_dilation_z).2
      (Or.inr (Or.inr (Or.inr (Or.inr ⟨rfl, Or.inr (by decide)⟩))))⟩

/-- C13: a node whose descriptor has an input offset other than 0 along the feature
axis or along the batch axis makes `calc_output_layout` fail; on every node for which
it returns a layout both offsets are 0. -/
theorem feature_batch_offset_zero (swor : sliding_window_range) (node : convolution_node) :
    (node.get_primitive.input_offset.feature0 ≠ 0 ∨
      node.get_primitive.input_offset.batch0 ≠ 0 →
      ∃ e, calc_output_layout swor node = .error e) ∧
    (∀ l, calc_output_layout swor node = .ok l →
      node.get_primitive.input_offset.feature0 = 0 ∧
      node.get_primitive.input_offset.batch0 = 0) := by
  have hok : ∀ l, calc_output_layout swor node = .ok l →
      node.get_primitive.input_offset.feature0 = 0 ∧
      node.get_primitive.input_offset.batch0 = 0 := by
    intro l hl
    have hv := (verified_of_calc_output_layout_ok swor node l hl).1
    rw [verify_parameters_ok_iff] at hv
    exact ⟨hv.2.2.2.2.2.2.1, hv.2.2.2.2.2.2.2.1⟩
  refine ⟨?_, hok⟩
  intro hbad
  apply error_of_not_ok
  intro l hl
  obtain ⟨h1, h2⟩ := hok l hl
  rcases hbad with h | h
  · exact h h1
  · exact h h2

/-- Witness of C13: the input offset 1 along the batch axis is refused; the 7 x 7
convolution, accepted, has both offsets 0. -/
theorem feature_batch_offset_zero_witness :
    (example_batch_offset.get_primitive.input_offset.batch0 ≠ 0 ∧
      ∃ e, calc_output_layout calc_sliding_window_output_range example_batch_offset =
        .error e) ∧
    (example_conv7x7.get_primitive.input_offset.feature0 = 0 ∧
      example_conv7x7.get_primitive.input_offset.batch0 = 0) :=
  ⟨⟨by decide,
      (feature_batch_offset_zero calc_sliding_window_output_range example_batch_offset).1
        (Or.inr (by decide))⟩,
    (feature_batch_offset_zero calc_sliding_window_output_range example_conv7x7).2
      ⟨data_types.f32, format.bfyx, ⟨1, 64, 109, 109, 1, 1⟩, padding.none⟩ rfl⟩

/-- C14, counterexample: for a `bfzyx` input with stride 0 on Z and the feature offset
1, the checks of X and Y passing, the error that `calc_output_layout` reports is the
one of the feature offset, not the one of the stride. -/
theorem error_order_counterexample :
    example_3d_stride_z_feature_offset.input.get_output_layout.format = format.bfzyx ∧
    example_3d_stride_z_feature_offset.get_primitive.stride.spatial2 ≤ 0 ∧
    example_3d_stride_z_feature_offset.get_primitive.input_offset.feature0 ≠ 0 ∧
    calc_output_layout calc_sliding_window_output_range example_3d_stride_z_feature_offset =
      .error ⟨"conv", error_condition.not_equal, "Input offset feature", 1, "", 0,
        "Input offset in feature is not supported"⟩ ∧
    ¬ ∃ e, calc_output_layout calc_sliding_window_output_range
        example_3d_stride_z_feature_offset = .error e ∧
      e.number_name = "Stride spatial Z" := by
  refine ⟨rfl, by decide, by decide, rfl, ?_⟩
  rintro ⟨e, he, hn⟩
  have h : calc_output_layout calc_sliding_window_output_range
      example_3d_stride_z_feature_offset =
      .error ⟨"conv", error_condition.not_equal, "Input offset feature", 1, "", 0,
        "Input offset in feature is not supported"⟩ := rfl
  rw [h] at he
  rw [← Except.error.inj he] at hn
  revert hn
  decide

/-- C14, amended: for input offsets on X and Y between `-2^30` and `2^30 - 1`, where
`2 * inputOffset` does not overflow `int32_t`: when a node violates one or several of
the constraints of the general parameter verification, the error that
`calc_output_layout` reports is the one of the first violated check in the order of
the code: stride X, stride Y, dilation X,
dilation Y, offset X, offset Y, feature offset, batch offset and then, for a `bfzyx`
input, stride Z, dilation Z, offset Z.  In particular, for a `bfzyx` input with stride
Z not positive and a feature offset other than 0, the checks of X and Y passing, the
reported error is the one of the feature offset. -/
theorem error_order (swor : sliding_window_range) (node : convolution_node)
    (hx : -1073741824 ≤ node.get_primitive.input_offset.spatial0 ∧
      node.get_primitive.input_offset.spatial0 < 1073741824)
    (hy : -1073741824 ≤ node.get_primitive.input_offset.spatial1 ∧
      node.get_primitive.input_offset.spatial1 < 1073741824)
    (h : calc_output_layout.verify_parameters node ≠ .ok ()) :
    ∃ e, calc_output_layout swor node = .error e ∧
      e.number_name =
        (if node.get_primitive.stride.spatial0 ≤ 0 then "Stride spatial X"
         else if node.get_primitive.stride.spatial1 ≤ 0 then "Stride spatial Y"
         else if node.get_primitive.dilation.spatial0 ≤ 0 then "Dilatation spatial X"
         else if node.get_primitive.dilation.spatial1 ≤ 0 then "Dilatation spatial Y"
         else if 2 * node.get_primitive.input_offset.spatial0 >
            node.input.get_output_layout.size.spatial0 then "Input offset spatial X"
         else if 2 * node.get_primitive.input_offset.spatial1 >
            node.input.get_output_layout.size.spatial1 then "Input offset spatial Y"
         else if node.get_primitive.input_offset.feature0 ≠ 0 then "Input offset feature"
         else if node.get_primitive.input_offset.batch0 ≠ 0 then "Input offset batch"
         else if node.get_primitive.stride.spatial2 ≤ 0 then "Stride spatial Z"
         else if node.get_primitive.dilation.spatial2 ≤ 0 then "Dilatation spatial Z"
         else "Input offset spatial Z") ∧
      (node.input.get_output_layout.format = format.bfzyx →
        node.get_primitive.stride.spatial2 ≤ 0 →
        node.get_primitive.input_offset.feature0 ≠ 0 →
        0 < node.get_primitive.stride.spatial0 → 0 < node.get_primitive.stride.spatial1 →
        0 < node.get_primitive.dilation.spatial0 → 0 < node.get_primitive.dilation.spatial1 →
        2 * node.get_primitive.input_offset.spatial0 ≤
          node.input.get_output_layout.size.spatial0 →
        2 * node.get_primitive.input_offset.spatial1 ≤
          node.input.get_output_layout.size.spatial1 →
        e.number_name = "Input offset feature") := by
  obtain ⟨e, he⟩ := error_of_not_ok (calc_output_layout.verify_parameters node)
    (fun a ha => h (by cases a; exact ha))
  have hn : e.number_name =
        (if node.get_primitive.stride.spatial0 ≤ 0 then "Stride spatial X"
         else if node.get_primitive.stride.spatial1 ≤ 0 then "Stride spatial Y"
         else if node.get_primitive.dilation.spatial0 ≤ 0 then "Dilatation spatial X"
         else if node.get_primitive.dilation.spatial1 ≤ 0 then "Dilatation spatial Y"
         else if 2 * node.get_primitive.input_offset.spatial0 >
            node.input.get_output_layout.size.spatial0 then "Input offset spatial X"
         else if 2 * node.get_primitive.input_offset.spatial1 >
            node.input.get_output_layout.size.spatial1 then "Input offset spatial Y"
         else if node.get_primitive.input_offset.feature0 ≠ 0 then "Input offset feature"
         else if node.get_primitive.input_offset.batch0 ≠ 0 then "Input offset batch"
         else if node.get_primitive.stride.spatial2 ≤ 0 then "Stride spatial Z"
         else if node.get_primitive.dilation.spatial2 ≤ 0 then "Dilatation spatial Z"
         else "Input offset spatial Z") := by
    rw [verify_parameters_eq, int32_mul_two_of_range _ hx.1 hx.2,
      int32_mul_two_of_range _ hy.1 hy.2] at he
    by_cases c1 : node.get_primitive.stride.spatial0 ≤ 0
    · rw [if_pos c1] at he
      rw [if_pos c1, ← Except.error.inj he]
    rw [if_neg c1] at he
    rw [if_neg c1]
    by_cases c2 : node.get_primitive.stride.spatial1 ≤ 0
    · rw [if_pos c2] at he
      rw [if_pos c2, ← Except.error.inj he]
    rw [if_neg c2] at he
    rw [if_neg c2]
    by_cases c3 : node.get_primitive.dilation.spatial0 ≤ 0
    · rw [if_pos c3] at he
      rw [if_pos c3, ← Except.error.inj he]
    rw [if_neg c3] at he
    rw [if_neg c3]
    by_cases c4 : node.get_primitive.dilation.spatial1 ≤ 0
    · rw [if_pos c4] at he
      rw [if_pos c4, ← Except.error.inj he]
    rw [if_neg c4] at he
    rw [if_neg c4]
    by_cases c5 : 2 * node.get_primitive.input_offset.spatial0 >
        node.input.get_output_layout.size.spatial0
    · rw [if_pos c5] at he
      rw [if_pos c5, ← Except.error.inj he]
    rw [if_neg c5] at he
    rw [if_neg c5]
    by_cases c6 : 2 * node.get_primitive.input_offset.spatial1 >
        node.input.get_output_layout.size.spatial1
    · rw [if_pos c6] at he
      rw [if_pos c6, ← Except.error.inj he]
    rw [if_neg c6] at he
    rw [if_neg c6]
    by_cases c7 : node.get_primitive.input_offset.feature0 ≠ 0
    · rw [if_pos c7] at he
      rw [if_pos c7, ← Except.error.inj he]
    rw [if_neg c7] at he
    rw [if_neg c7]
    by_cases c8 : node.get_primitive.input_offset.batch0 ≠ 0
    · rw [if_pos c8] at he
      rw [if_pos c8, ← Except.error.inj he]
    rw [if_neg c8] at he
    rw [if_neg c8]
    by_cases cf : node.input.get_output_layout.format = format.bfzyx
    swap
    · rw [if_neg cf] at he
      exact absurd he (by simp)
    rw [if_pos cf] at he
    by_cases c9 : node.get_primitive.stride.spatial2 ≤ 0
    · rw [if_pos c9] at he
      rw [if_pos c9, ← Except.error.inj he]
    rw [if_neg c9] at he
    rw [if_neg c9]
    by_cases c10 : node.get_primitive.dilation.spatial2 ≤ 0
    · rw [if_pos c10] at he
      rw [if_pos c10, ← Except.error.inj he]
    rw [if_neg c10] at he
    rw [if_neg c10]
    by_cases c11 : int32_mul 2 node.get_primitive.input_offset.spatial2 >
        node.input.get_output_layout.size.spatial1
    · rw [if_pos c11] at he
      rw [← Except.error.inj he]
    · rw [if_neg c11] at he
      exact absurd he (by simp)
  refine ⟨e, calc_output_layout_of_verify_parameters_error swor node e he, hn, ?_⟩
  intro _ _ hfeat h1 h2 h3 h4 h5 h6
  rw [hn, if_neg (by omega), if_neg (by omega), if_neg (by omega), if_neg (by omega),
    if_neg (by omega), if_neg (by omega), if_pos hfeat]

/-- Witness of C14, amended: the `bfzyx` input with stride 0 on Z and the feature
offset 1 fails the verification, and the reported error is the one of the feature
offset. -/
theorem error_order_witness :
    calc_output_layout.verify_parameters example_3d_stride_z_feature_offset ≠ .ok () ∧
    ∃ e, calc_output_layout calc_sliding_window_output_range
        example_3d_stride_z_feature_offset = .error e ∧
      e.number_name = "Input offset feature" := by
  have hne : calc_output_layout.verify_parameters example_3d_stride_z_feature_offset ≠
      .ok () := by
    intro hv
    have hf := ((verify_parameters_ok_iff example_3d_stride_z_feature_offset).mp
      hv).2.2.2.2.2.2.1
    revert hf
    decide
  obtain ⟨e, he, _, hpart⟩ :=
    error_order calc_sliding_window_output_range example_3d_stride_z_feature_offset
      (by decide) (by decide) hne
  exact ⟨hne, e, he, hpart rfl (by decide) (by decide) (by decide) (by decide) (by decide)
    (by decide) (by decide) (by decide)⟩

/-- C15: for a node with a bias, (1) a group `j` below `split` whose bias has a feature
length other than `outputFeatureCount / split` makes the constructor fail; (2) when
the checks before it pass and that bias has batch 1, the error is the one of the
check "Bias feature[0]", with the message "Bias/fm mismatch"; (3) a bias with a batch
or a spatial extent other than 1 makes the constructor fail; (4) when the bias of
every group has batch 1, spatial extents 1 and the feature length
`outputFeatureCount / split`, the bias checks pass for every group. -/
theorem bias_checks (dims : tensor_dims) (node : convolution_node)
    (hb : node.bias_term = true) :
    (∀ j : Nat, (j : Int) < node.get_split →
      (node.bias j).get_output_layout.size.feature0 ≠
        Int.tdiv node.get_output_layout.size.feature0 node.get_split →
      ∃ e, typed_primitive_inst dims node = .error e) ∧
    (∀ j : Nat, (j : Int) < node.get_split →
      (dims.raw_size node.input.get_output_layout.size : Int) =
        dims.raw_size node.get_output_layout.size →
      (dims.raw_size node.get_primitive.stride : Int) =
        dims.raw_size node.get_output_layout.size →
      (∀ i : Nat, i < j → typed_primitive_inst.verify_group dims node i = .ok ()) →
      (node.bias j).get_output_layout.size.batch0 = 1 →
      (node.bias j).get_output_layout.size.feature0 ≠
        Int.tdiv node.get_output_layout.size.feature0 node.get_split →
      typed_primitive_inst dims node =
        .error ⟨node.id, error_condition.not_equal, "Bias feature[0]",
          (node.bias j).get_output_layout.size.feature0, "expected feature map number",
          Int.tdiv node.get_output_layout.size.feature0 node.get_split,
          "Bias/fm mismatch"⟩) ∧
    (∀ j : Nat, (j : Int) < node.get_split →
      ((node.bias j).get_output_layout.size.batch0 ≠ 1 ∨
        (node.bias j).get_output_layout.size.spatial0 ≠ 1 ∨
        (node.bias j).get_output_layout.size.spatial1 ≠ 1 ∨
        (node.bias j).get_output_layout.size.spatial2 ≠ 1) →
      ∃ e, typed_primitive_inst dims node = .error e) ∧
    ((∀ j : Nat, (j : Int) < node.get_split →
        (node.bias j).get_output_layout.size.batch0 = 1 ∧
        (node.bias j).get_output_layout.size.spatial0 = 1 ∧
        (node.bias j).get_output_layout.size.spatial1 = 1 ∧
        (node.bias j).get_output_layout.size.spatial2 = 1 ∧
        (node.bias j).get_output_layout.size.feature0 =
          Int.tdiv node.get_output_layout.size.feature0 node.get_split) →
      ∀ j : Nat, (j : Int) < node.get_split →
        typed_primitive_inst.verify_bias node j = .ok ()) := by
  have hok : typed_primitive_inst dims node = .ok () → ∀ j : Nat, (j : Int) < node.get_split →
      typed_primitive_inst.verify_bias node j = .ok () := by
    intro h j hj
    exact (verify_group_ok dims node j
      (((typed_primitive_inst_ok_iff dims node).mp h).2.2 j hj)).1 hb
  refine ⟨?_, ?_, ?_, ?_⟩
  · intro j hj hne
    apply error_of_not_ok
    intro u hu
    cases u
    exact hne ((verify_bias_ok_iff node j).mp (hok hu j hj)).2.1
  · intro j hj h1 h2 hlt hbatch hne
    apply typed_primitive_inst_error_of_group dims node j _ hj h1 h2 hlt
    simp only [typed_primitive_inst.verify_group, hb, if_true,
      typed_primitive_inst.verify_bias, not_equal_bind, bind_assoc]
    rw [if_neg (not_not.mpr hbatch), if_pos hne]
    rfl
  · intro j hj hne
    apply error_of_not_ok
    intro u hu
    cases u
    obtain ⟨h1, _, h2, h3, h4⟩ := (verify_bias_ok_iff node j).mp (hok hu j hj)
    rcases hne with h | h | h | h
    · exact h h1
    · exact h h4
    · exact h h3
    · exact h h2
  · intro hall j hj
    obtain ⟨h1, h2, h3, h4, h5⟩ := hall j hj
    exact (verify_bias_ok_iff node j).mpr ⟨h1, h5, h4, h3, h2⟩

/-- Witness of C15: with two groups and 16 output features, a bias of 16 features is
refused with "Bias/fm mismatch", a bias with extent 2 on X is refused, and for biases
of 8 features the bias checks pass. -/
theorem bias_checks_witness :
    example_grouped_bias_16.bias_term = true ∧
    typed_primitive_inst example_dims example_grouped_bias_16 =
      .error ⟨"conv", error_condition.not_equal, "Bias feature[0]", 16,
        "expected feature map number", 8, "Bias/fm mismatch"⟩ ∧
    (∃ e, typed_primitive_inst example_dims example_grouped_bias_x2 = .error e) ∧
    typed_primitive_inst.verify_bias example_grouped_valid 0 = .ok () ∧
    typed_primitive_inst.verify_bias example_grouped_valid 1 = .ok () ∧
    typed_primitive_inst example_dims example_grouped_valid = .ok () :=
  ⟨rfl,
    (bias_checks example_dims example_grouped_bias_16 rfl).2.1 0 (by decide) rfl rfl
      (fun i hi => absurd hi (Nat.not_lt_zero i)) rfl (by decide),
    (bias_checks example_dims example_grouped_bias_x2 rfl).2.2.1 1 (by decide)
      (Or.inr (Or.inl (by decide))),
    (bias_checks example_dims example_grouped_valid rfl).2.2.2
      (fun _ _ => ⟨rfl, rfl, rfl, rfl, rfl⟩) 0 (by decide),
    (bias_checks example_dims example_grouped_valid rfl).2.2.2
      (fun _ _ => ⟨rfl, rfl, rfl, rfl, rfl⟩) 1 (by decide),
    rfl⟩

/-- C16: the constructor passes only if, for every group `j` below `split`,
`(inputFeatureCount - inputOffsetFeature) / split` is at least the feature count of
`weights(j)`; a group whose weights have a feature count greater than that quotient
makes it fail. -/
theorem weights_input_features (dims : tensor_dims) (node : convolution_node) :
    (typed_primitive_inst dims node = .ok () →
      ∀ j : Nat, (j : Int) < node.get_split →
        Int.tdiv (node.input.get_output_layout.size.feature0 -
          node.get_primitive.input_offset.feature0) node.get_split ≥
          (node.weights j).get_output_layout.size.feature0) ∧
    (∀ j : Nat, (j : Int) < node.get_split →
      (node.weights j).get_output_layout.size.feature0 >
        Int.tdiv (node.input.get_output_layout.size.feature0 -
          node.get_primitive.input_offset.feature0) node.get_split →
      ∃ e, typed_primitive_inst dims node = .error e) := by
  have hok : typed_primitive_inst dims node = .ok () →
      ∀ j : Nat, (j : Int) < node.get_split →
        Int.tdiv (node.input.get_output_layout.size.feature0 -
          node.get_primitive.input_offset.feature0) node.get_split ≥
          (node.weights j).get_output_layout.size.feature0 := by
    intro h j hj
    exact (verify_group_ok dims node j
      (((typed_primitive_inst_ok_iff dims node).mp h).2.2 j hj)).2
  refine ⟨hok, ?_⟩
  intro j hj hgt
  apply error_of_not_ok
  intro u hu
  cases u
  have := hok hu j hj
  omega

/-- Witness of C16: with 8 input features in two groups, weights of 4 input features
are accepted and weights of 8 input features are refused. -/
theorem weights_input_features_witness :
    (typed_primitive_inst example_dims example_grouped_valid = .ok () ∧
      ∀ j : Nat, (j : Int) < 2 → Int.tdiv (8 - 0) 2 ≥ (4 : Int)) ∧
    ((example_grouped_weights_8.weights 0).get_output_layout.size.feature0 >
        Int.tdiv (example_grouped_weights_8.input.get_output_layout.size.feature0 -
          example_grouped_weights_8.get_primitive.input_offset.feature0)
          example_grouped_weights_8.get_split ∧
      ∃ e, typed_primitive_inst example_dims example_grouped_weights_8 = .error e) :=
  ⟨⟨rfl, (weights_input_features example_dims example_grouped_valid).1 rfl⟩,
    by decide,
    (weights_input_features example_dims example_grouped_weights_8).2 0 (by decide)
      (by decide)⟩

/-- C17, counterexample: two nodes with an `i8` input in `b_fs_yx_fsv4`, an output type
other than `bin` and one user, a convolution.  In the first the split of the user (8)
equals the output feature count of the user itself (8) and differs from the one of
the node (16); in the second split, groups and both output feature counts are 1.
Both times the count of the user equals its own output feature count, and the output
format is `b_fs_yx_fsv4`, not `byxf_af32`. -/
theorem depthwise_consumer_counterexample :
    (example_consumer_own_features.get_users =
        [convolution_neighbour 8 1
          ⟨data_types.f32, format.bfyx, ⟨1, 8, 4, 4, 1, 1⟩, padding.none⟩ []] ∧
      (convolution_neighbour 8 1
        ⟨data_types.f32, format.bfyx, ⟨1, 8, 4, 4, 1, 1⟩, padding.none⟩ []).is_type
        primitive_type_id.convolution = true ∧
      (convolution_neighbour 8 1
        ⟨data_types.f32, format.bfyx, ⟨1, 8, 4, 4, 1, 1⟩, padding.none⟩ []).get_split =
        (convolution_neighbour 8 1
          ⟨data_types.f32, format.bfyx, ⟨1, 8, 4, 4, 1, 1⟩,
            padding.none⟩ []).get_output_layout.size.feature0 ∧
      example_consumer_own_features.input.get_output_layout.data_type = data_types.i8 ∧
      example_consumer_own_features.input.get_output_layout.format = format.b_fs_yx_fsv4 ∧
      calc_output_layout calc_sliding_window_output_range example_consumer_own_features =
        .ok ⟨data_types.f32, format.b_fs_yx_fsv4, ⟨1, 16, 6, 6, 1, 1⟩, padding.none⟩) ∧
    (example_consumer_single_feature.get_users =
        [convolution_neighbour 1 1
          ⟨data_types.f32, format.bfyx, ⟨1, 1, 4, 4, 1, 1⟩, padding.none⟩ []] ∧
      (convolution_neighbour 1 1
        ⟨data_types.f32, format.bfyx, ⟨1, 1, 4, 4, 1, 1⟩, padding.none⟩ []).is_type
        primitive_type_id.convolution = true ∧
      (convolution_neighbour 1 1
        ⟨data_types.f32, format.bfyx, ⟨1, 1, 4, 4, 1, 1⟩, padding.none⟩ []).get_split =
        (convolution_neighbour 1 1
          ⟨data_types.f32, format.bfyx, ⟨1, 1, 4, 4, 1, 1⟩,
            padding.none⟩ []).get_output_layout.size.feature0 ∧
      (convolution_neighbour 1 1
        ⟨data_types.f32, format.bfyx, ⟨1, 1, 4, 4, 1, 1⟩, padding.none⟩ []).get_split =
        calc_output_layout.output_features example_consumer_single_feature ∧
      example_consumer_single_feature.input.get_output_layout.data_type = data_types.i8 ∧
      example_consumer_single_feature.input.get_output_layout.format = format.b_fs_yx_fsv4 ∧
      calc_output_layout calc_sliding_window_output_range example_consumer_single_feature =
        .ok ⟨data_types.f32, format.b_fs_yx_fsv4, ⟨1, 1, 6, 6, 1, 1⟩, padding.none⟩) :=
  ⟨⟨rfl, rfl, rfl, rfl, rfl, rfl⟩, ⟨rfl, rfl, rfl, rfl, rfl, rfl, rfl⟩⟩

/-- C17, amended: on the default path, with an output type other than `bin`, an `i8`
input in `b_fs_yx_fsv4` and exactly one user that is a convolution, the output format
is `byxf_af32` exactly when the user passes the test of the code: its split is
greater than 1 and equals the output feature count of the node under inference, or
its group count, converted to `int32_t`, is greater than 1 and equals that count. -/
theorem depthwise_consumer_rule (swor : sliding_window_range) (node : convolution_node)
    (r : tensor) (user : program_node)
    (hp : calc_output_layout.verify_parameters node = .ok ())
    (hs : node.get_primitive.with_output_size = false)
    (hb : calc_output_layout.output_type node ≠ data_types.bin)
    (hr : swor node.input.get_output_layout.size (node.weights 0).get_output_layout.size
      node.get_primitive.input_offset node.get_primitive.stride node.get_primitive.dilation
      true 1 = .ok r)
    (hu : node.get_users = [user])
    (hc : user.is_type primitive_type_id.convolution = true)
    (hi : node.input.get_output_layout.data_type = data_types.i8)
    (hfmt : node.input.get_output_layout.format = format.b_fs_yx_fsv4) :
    ∃ l, calc_output_layout swor node = .ok l ∧
      (l.format = format.byxf_af32 ↔
        (user.get_split > 1 ∧
          user.get_split = calc_output_layout.output_features node) ∨
        (to_int32 user.get_groups > 1 ∧
          to_int32 user.get_groups = calc_output_layout.output_features node)) := by
  obtain ⟨hf, hw⟩ := not_winograd_of_format node (Or.inl hfmt)
  refine ⟨_, calc_output_layout_default swor node r hp hf hw hs hr, ?_⟩
  by_cases hdw : calc_output_layout.next_is_dw user (calc_output_layout.output_features node)
  · rw [select_layout_of_next_is_dw node _ _ user hb hu hc hi hfmt hdw]
    exact ⟨fun _ => hdw, fun _ => rfl⟩
  · have h1 : ¬ calc_output_layout.first_layer node := by
      rintro ⟨_, h, _⟩
      rw [hfmt] at h
      exact absurd h (by decide)
    rw [select_layout_of_no_rule node _ _ hb h1]
    · constructor
      · intro h
        have h2 : node.input.get_output_layout.format = format.byxf_af32 := h
        rw [hfmt] at h2
        exact absurd h2 (by decide)
      · intro h
        exact absurd h hdw
    · intro user2 hu2 _ hcond
      rw [hu] at hu2
      rw [← List.head_eq_of_cons_eq hu2] at hcond
      exact hdw hcond.2.2
    · intro user2 p q _ _ _ _ _ hcond
      have h2 := hcond.2.1
      rw [hfmt] at h2
      exact absurd h2 (by decide)

/-- Witness of C17, amended: 16 filters in front of a convolution with 16 groups give
`byxf_af32`. -/
theorem depthwise_consumer_rule_witness :
    calc_output_layout.verify_parameters example_consumer_depthwise = .ok () ∧
    calc_output_layout.output_type example_consumer_depthwise ≠ data_types.bin ∧
    calc_output_layout calc_sliding_window_output_range example_consumer_depthwise =
      .ok ⟨data_types.f32, format.byxf_af32, ⟨1, 16, 6, 6, 1, 1⟩, padding.none⟩ ∧
    ∃ l, calc_output_layout calc_sliding_window_output_range example_consumer_depthwise =
        .ok l ∧
      (l.format = format.byxf_af32 ↔
        ((1 : Int) > 1 ∧ (1 : Int) = 16) ∨ (to_int32 16 > 1 ∧ to_int32 16 = 16)) :=
  ⟨rfl, by decide, rfl,
    depthwise_consumer_rule calc_sliding_window_output_range example_consumer_depthwise
      ⟨0, 0, 6, 6, 1, 0⟩
      (convolution_neighbour 1 16
        ⟨data_types.f32, format.bfyx, ⟨1, 16, 4, 4, 1, 1⟩, padding.none⟩ [])
      rfl rfl (by decide) rfl rfl rfl rfl rfl⟩

/-- C18, counterexample: an `i8` input in `byxf_af32` whose predecessor is a
convolution with an input in `b_fs_yx_fsv4`, an output type other than `bin`, and two
users, both convolutions that fail the depthwise test: the output format is the
format of the input, `byxf_af32`, not `b_fs_yx_fsv4`. -/
theorem predecessor_rule_counterexample :
    calc_output_layout.prev_node example_prev_convolution_two_users =
      some example_prev_convolution ∧
    example_prev_convolution.is_type primitive_type_id.convolution = true ∧
    (example_prev_convolution.get_dependencies.head?.map
      (fun q => q.get_output_layout.format)) = some format.b_fs_yx_fsv4 ∧
    example_prev_convolution_two_users.input.get_output_layout.data_type = data_types.i8 ∧
    example_prev_convolution_two_users.input.get_output_layout.format = format.byxf_af32 ∧
    example_prev_convolution_two_users.get_users =
      [example_plain_consumer, example_plain_consumer] ∧
    example_plain_consumer.is_type primitive_type_id.convolution = true ∧
    ¬ calc_output_layout.next_is_dw example_plain_consumer
      (calc_output_layout.output_features example_prev_convolution_two_users) ∧
    calc_output_layout calc_sliding_window_output_range example_prev_convolution_two_users =
      .ok ⟨data_types.f32, format.byxf_af32, ⟨1, 16, 6, 6, 1, 1⟩, padding.none⟩ := by
  refine ⟨rfl, rfl, rfl, rfl, rfl, rfl, rfl, ?_, rfl⟩
  unfold calc_output_layout.next_is_dw
  decide

/-- C18, amended: on the default path, with an output type other than `bin`, when the
node has exactly one user and that user is a convolution that fails the depthwise
test, the input is `i8` in `byxf_af32`, the predecessor (the first dependency, or the
first dependency of that one when it is a reorder) is a convolution and the first
dependency of that convolution has the output format `b_fs_yx_fsv4`, the output
format is `b_fs_yx_fsv4`. -/
theorem predecessor_rule (swor : sliding_window_range) (node : convolution_node)
    (r : tensor) (user p q : program_node)
    (hp : calc_output_layout.verify_parameters node = .ok ())
    (hs : node.get_primitive.with_output_size = false)
    (hb : calc_output_layout.output_type node ≠ data_types.bin)
    (hr : swor node.input.get_output_layout.size (node.weights 0).get_output_layout.size
      node.get_primitive.input_offset node.get_primitive.stride node.get_primitive.dilation
      true 1 = .ok r)
    (hu : node.get_users = [user])
    (hc : user.is_type primitive_type_id.convolution = true)
    (hi : node.input.get_output_layout.data_type = data_types.i8)
    (hfmt : node.input.get_output_layout.format = format.byxf_af32)
    (hdw : ¬ calc_output_layout.next_is_dw user (calc_output_layout.output_features node))
    (hprev : calc_output_layout.prev_node node = some p)
    (hpc : p.is_type primitive_type_id.convolution = true)
    (hq : p.get_dependencies.head? = some q)
    (hqf : q.get_output_layout.format = format.b_fs_yx_fsv4) :
    ∃ l, calc_output_layout swor node = .ok l ∧ l.format = format.b_fs_yx_fsv4 := by
  obtain ⟨hf, hw⟩ := not_winograd_of_format node (Or.inr (Or.inl hfmt))
  refine ⟨_, calc_output_layout_default swor node r hp hf hw hs hr, ?_⟩
  rw [select_layout_of_prev_convolution node _ _ user p q hb hu hc hi hfmt hdw hprev hpc hq hqf]
  rfl

/-- Witness of C18, amended: the input comes through a reorder from a convolution whose
input is in `b_fs_yx_fsv4`, and the single user is a convolution with split 1 and 1
group: the output format is `b_fs_yx_fsv4`. -/
theorem predecessor_rule_witness :
    calc_output_layout.verify_parameters example_prev_convolution_one_user = .ok () ∧
    calc_output_layout.prev_node example_prev_convolution_one_user =
      some example_prev_convolution ∧
    calc_output_layout calc_sliding_window_output_range example_prev_convolution_one_user =
      .ok ⟨data_types.f32, format.b_fs_yx_fsv4, ⟨1, 16, 6, 6, 1, 1⟩, padding.none⟩ ∧
    ∃ l, calc_output_layout calc_sliding_window_output_range
        example_prev_convolution_one_user = .ok l ∧ l.format = format.b_fs_yx_fsv4 :=
  ⟨rfl, rfl, rfl,
    predecessor_rule calc_sliding_window_output_range example_prev_convolution_one_user
      ⟨0, 0, 6, 6, 1, 0⟩ example_plain_consumer example_prev_convolution
      (data_node ⟨data_types.i8, format.b_fs_yx_fsv4, ⟨1, 16, 10, 10, 1, 1⟩, padding.none⟩)
      rfl rfl (by decide) rfl rfl rfl rfl rfl
      (by unfold calc_output_layout.next_is_dw; decide) rfl rfl rfl rfl⟩

/-- C19: on the default path, with an output type other than `bin`, an `i8` input in
`byx8_f4` whose batch is a multiple of 4 and whose feature count is 3 gives the output
format `fs_bs_yx_bsv4_fsv32` with the shape of the default path (batch of the input,
output feature count, output range of the helper), whatever the users and the
dependencies of the node are. -/
theorem first_layer_rule (swor : sliding_window_range) (node : convolution_node)
    (r : tensor)
    (hp : calc_output_layout.verify_parameters node = .ok ())
    (hs : node.get_primitive.with_output_size = false)
    (hb : calc_output_layout.output_type node ≠ data_types.bin)
    (hr : swor node.input.get_output_layout.size (node.weights 0).get_output_layout.size
      node.get_primitive.input_offset node.get_primitive.stride node.get_primitive.dilation
      true 1 = .ok r)
    (hi : node.input.get_output_layout.data_type = data_types.i8)
    (hfmt : node.input.get_output_layout.format = format.byx8_f4)
    (hbatch : (4 : Int) ∣ node.input.get_output_layout.size.batch0)
    (hfeat : node.input.get_output_layout.size.feature0 = 3) :
    ∃ l, calc_output_layout swor node = .ok l ∧
      l.format = format.fs_bs_yx_bsv4_fsv32 ∧
      l.size.batch0 = node.input.get_output_layout.size.batch0 ∧
      l.size.feature0 = calc_output_layout.output_features node ∧
      l.size.spatial0 = r.spatial0 ∧ l.size.spatial1 = r.spatial1 ∧
      l.size.spatial2 = r.spatial2 := by
  obtain ⟨hf, hw⟩ := not_winograd_of_format node (Or.inr (Or.inr hfmt))
  have h1 : calc_output_layout.first_layer node :=
    ⟨hi, hfmt, Int.dvd_iff_tmod_eq_zero.mp hbatch, hfeat⟩
  refine ⟨_, calc_output_layout_default swor node r hp hf hw hs hr, ?_⟩
  rw [select_layout_of_first_layer node _ _ hb h1]
  exact ⟨rfl, rfl, rfl, rfl, rfl, rfl⟩

/-- Witness of C19: batch 4 and 3 features in `byx8_f4`, in front of a convolution with
8 groups, give `fs_bs_yx_bsv4_fsv32` and the shape (4, 8, 14, 14, 1). -/
theorem first_layer_rule_witness :
    calc_output_layout.verify_parameters example_first_layer = .ok () ∧
    calc_output_layout.output_type example_first_layer ≠ data_types.bin ∧
    calc_output_layout calc_sliding_window_output_range example_first_layer =
      .ok ⟨data_types.f32, format.fs_bs_yx_bsv4_fsv32, ⟨4, 8, 14, 14, 1, 1⟩, padding.none⟩ ∧
    ∃ l, calc_output_layout calc_sliding_window_output_range example_first_layer = .ok l ∧
      l.format = format.fs_bs_yx_bsv4_fsv32 ∧
      l.size.batch0 = 4 ∧
      l.size.feature0 = calc_output_layout.output_features example_first_layer ∧
      l.size.spatial0 = 14 ∧ l.size.spatial1 = 14 ∧ l.size.spatial2 = 1 :=
  ⟨rfl, by decide, rfl,
    first_layer_rule calc_sliding_window_output_range example_first_layer
      ⟨0, 0, 14, 14, 1, 0⟩ rfl rfl (by decide) rfl rfl rfl (by decide) rfl⟩

/-- C20: on the default path with an output type other than `bin`, when none of the
three rules matches (first-layer rule; depthwise rule of the single convolution user;
rule of the predecessor convolution) the output format is the format of the input;
in particular when the first-layer rule does not match and the node has no user, more
than one user, or a single user that is not a convolution. -/
theorem no_rule_keeps_format (swor : sliding_window_range) (node : convolution_node)
    (r : tensor)
    (hp : calc_output_layout.verify_parameters node = .ok ())
    (hf : node.input.get_output_layout.format ∉ winograd_weights_formats)
    (hw : node.input.get_output_layout.format ≠ format.winograd_2x3_s1_data)
    (hs : node.get_primitive.with_output_size = false)
    (hb : calc_output_layout.output_type node ≠ data_types.bin)
    (hr : swor node.input.get_output_layout.size (node.weights 0).get_output_layout.size
      node.get_primitive.input_offset node.get_primitive.stride node.get_primitive.dilation
      true 1 = .ok r)
    (h1 : ¬ calc_output_layout.first_layer node) :
    ((∀ user, node.get_users = [user] →
        user.is_type primitive_type_id.convolution = true →
        ¬ (node.input.get_output_layout.data_type = data_types.i8 ∧
          node.input.get_output_layout.format = format.b_fs_yx_fsv4 ∧
          calc_output_layout.next_is_dw user (calc_output_layout.output_features node))) →
      (∀ user p q, node.get_users = [user] →
        user.is_type primitive_type_id.convolution = true →
        calc_output_layout.prev_node node = some p →
        p.is_type primitive_type_id.convolution = true →
        p.get_dependencies.head? = some q →
        ¬ (node.input.get_output_layout.data_type = data_types.i8 ∧
          node.input.get_output_layout.format = format.byxf_af32 ∧
          ¬ calc_output_layout.next_is_dw user (calc_output_layout.output_features node) ∧
          q.get_output_layout.format = format.b_fs_yx_fsv4)) →
      ∃ l, calc_output_layout swor node = .ok l ∧
        l.format = node.input.get_output_layout.format) ∧
    (node.get_users = [] ∨ 1 < node.get_users.length ∨
        (∃ user, node.get_users = [user] ∧
          user.is_type primitive_type_id.convolution = false) →
      ∃ l, calc_output_layout swor node = .ok l ∧
        l.format = node.input.get_output_layout.format) := by
  have hcalc := calc_output_layout_default swor node r hp hf hw hs hr
  constructor
  · intro hdw hprev
    refine ⟨_, hcalc, ?_⟩
    rw [select_layout_of_no_rule node _ _ hb h1 hdw hprev]
    rfl
  · intro husers
    refine ⟨_, hcalc, ?_⟩
    rcases husers with h | h | ⟨user, hu, hc⟩
    · rw [select_layout_of_users node _ _ hb h1 (by rw [h]; decide)]
      rfl
    · rw [select_layout_of_users node _ _ hb h1 (by omega)]
      rfl
    · rw [select_layout_of_user_type node _ _ user hb h1 hu hc]
      rfl

/-- Witness of C20: the 7 x 7 convolution has no user and keeps `bfyx`. -/
theorem no_rule_keeps_format_witness :
    calc_output_layout.verify_parameters example_conv7x7 = .ok () ∧
    ¬ calc_output_layout.first_layer example_conv7x7 ∧
    example_conv7x7.get_users = [] ∧
    ∃ l, calc_output_layout calc_sliding_window_output_range example_conv7x7 = .ok l ∧
      l.format = format.bfyx :=
  ⟨rfl, by unfold calc_output_layout.first_layer; decide, rfl,
    (no_rule_keeps_format calc_sliding_window_output_range example_conv7x7
      ⟨0, 0, 109, 109, 1, 0⟩ rfl (by decide) (by decide) rfl (by decide) rfl
      (by unfold calc_output_layout.first_layer; decide)).2 (Or.inl rfl)⟩

/-- C21: for two nodes with the same input layout, weights layout, descriptor and
fusion information, whatever their users and dependencies are, `calc_output_layout`
fails on both or returns a layout on both, and the two layouts have the same data
type and the same size (batch, feature and spatial extents). -/
theorem neighbours_change_format_only (swor : sliding_window_range)
    (n1 n2 : convolution_node)
    (hin : n1.input.get_output_layout = n2.input.get_output_layout)
    (hw : (n1.weights 0).get_output_layout = (n2.weights 0).get_output_layout)
    (hd : n1.get_primitive = n2.get_primitive)
    (hfp : n1.has_fused_primitives = n2.has_fused_primitives)
    (hfl : n1.get_fused_output_layout = n2.get_fused_output_layout) :
    ((∃ e, calc_output_layout swor n1 = .error e) ↔
      (∃ e, calc_output_layout swor n2 = .error e)) ∧
    ((∃ l, calc_output_layout swor n1 = .ok l) ↔
      (∃ l, calc_output_layout swor n2 = .ok l)) ∧
    (∀ l1 l2, calc_output_layout swor n1 = .ok l1 → calc_output_layout swor n2 = .ok l2 →
      l1.data_type = l2.data_type ∧ l1.size = l2.size) := by
  have h12 := calc_output_layout_congr swor n1 n2 hin hw hd hfp hfl
  have h21 := calc_output_layout_congr swor n2 n1 hin.symm hw.symm hd.symm hfp.symm hfl.symm
  have hok : (∃ l, calc_output_layout swor n1 = .ok l) ↔
      (∃ l, calc_output_layout swor n2 = .ok l) := by
    constructor
    · rintro ⟨l, hl⟩
      obtain ⟨l2, hl2, _⟩ := h12 l hl
      exact ⟨l2, hl2⟩
    · rintro ⟨l, hl⟩
      obtain ⟨l1, hl1, _⟩ := h21 l hl
      exact ⟨l1, hl1⟩
  refine ⟨?_, hok, ?_⟩
  · constructor
    · rintro ⟨e, he⟩
      apply error_of_not_ok
      intro l hl
      obtain ⟨l1, hl1⟩ := hok.mpr ⟨l, hl⟩
      rw [he] at hl1
      exact absurd hl1 (by simp)
    · rintro ⟨e, he⟩
      apply error_of_not_ok
      intro l hl
      obtain ⟨l2, hl2⟩ := hok.mp ⟨l, hl⟩
      rw [he] at hl2
      exact absurd hl2 (by simp)
  · intro l1 l2 hl1 hl2
    obtain ⟨l2', hl2', ht, hsz⟩ := h12 l1 hl1
    rw [hl2] at hl2'
    rw [Except.ok.inj hl2']
    exact ⟨ht.symm, hsz.symm⟩

/-- Witness of C21: the same convolution in front of a convolution with 16 groups and
in front of one with split 8 gives `byxf_af32` and `b_fs_yx_fsv4`, both times with the
type `f32` and the size (1, 16, 6, 6, 1). -/
theorem neighbours_change_format_only_witness :
    example_consumer_depthwise.get_users ≠ example_consumer_own_features.get_users ∧
    calc_output_layout calc_sliding_window_output_range example_consumer_depthwise =
      .ok ⟨data_types.f32, format.byxf_af32, ⟨1, 16, 6, 6, 1, 1⟩, padding.none⟩ ∧
    calc_output_layout calc_sliding_window_output_range example_consumer_own_features =
      .ok ⟨data_types.f32, format.b_fs_yx_fsv4, ⟨1, 16, 6, 6, 1, 1⟩, padding.none⟩ ∧
    (data_types.f32 = data_types.f32 ∧
      (⟨1, 16, 6, 6, 1, 1⟩ : tensor) = ⟨1, 16, 6, 6, 1, 1⟩) := by
  refine ⟨?_, rfl, rfl,
    (neighbours_change_format_only calc_sliding_window_output_range
      example_consumer_depthwise example_consumer_own_features rfl rfl rfl rfl rfl).2.2
      ⟨data_types.f32, format.byxf_af32, ⟨1, 16, 6, 6, 1, 1⟩, padding.none⟩
      ⟨data_types.f32, format.b_fs_yx_fsv4, ⟨1, 16, 6, 6, 1, 1⟩, padding.none⟩ rfl rfl⟩
  intro h
  have hs : (convolution_neighbour 1 16
      ⟨data_types.f32, format.bfyx, ⟨1, 16, 4, 4, 1, 1⟩, padding.none⟩ []).get_split =
      (convolution_neighbour 8 1
        ⟨data_types.f32, format.bfyx, ⟨1, 8, 4, 4, 1, 1⟩, padding.none⟩ []).get_split :=
    congrArg program_node.get_split (List.head_eq_of_cons_eq h)
  revert hs
  decide

end cldnn
